import Mathlib

/-! # Colour classification and compact hex encodings (package `colors`)

A shallow embedding of `internal/colors/colors.go`.

* `Color`, `Chroma`, `Luminance` are Go's `uint16`, `uint8`, `uint8`; they are
  embedded as natural numbers and range hypotheses (`c < 16`, `l < 256`) are
  stated where a result depends on them.
* Go strings are embedded as `String`; all characters produced are ASCII, so
  Go's byte length and `String.length` agree.
* `fmt.Sprintf("%X", u)` is embedded by `sprintfX`, which follows the digit
  loop of the standard library's integer formatter.
* Go maps are embedded as association lists in source order. Iterating a map
  visits its entries in an unspecified order, so `Colorful` takes the visiting
  order as an argument, and theorems quantify over every permutation of
  `ColorMap`.
* `colorful.MakeColor` and `Color.DistanceLab` belong to an external library;
  `Colorful` takes them as parameters. Distances (finite `float64` values) are
  embedded as rationals, on which `>=` agrees with the floating-point
  comparison.
-/

namespace colors

/-! ## Data model -/

/-- Go: `type Color uint16`. -/
abbrev Color := Nat

/-- Go: `type Colors []Color`. -/
abbrev Colors := List Color

/-- Go: `type Chroma uint8`. -/
abbrev Chroma := Nat

/-- Go: `type Luminance uint8`. -/
abbrev Luminance := Nat

/-- Go: `type LightMap []Luminance`. -/
abbrev LightMap := List Luminance

def Black : Color := 0
def Brown : Color := 1
def Grey : Color := 2
def White : Color := 3
def Purple : Color := 4
def Gold : Color := 5
def Blue : Color := 6
def Cyan : Color := 7
def Teal : Color := 8
def Green : Color := 9
def Lime : Color := 10
def Yellow : Color := 11
def Magenta : Color := 12
def Orange : Color := 13
def Red : Color := 14
def Pink : Color := 15

/-! ## `%X` formatting -/

/-- Go's `fmt` digit table for upper-case bases: `udigits = "0123456789ABCDEFX"`. -/
def udigits : String := "0123456789ABCDEFX"

/-- Table lookup `udigits[d]`. -/
def udigit (d : Nat) : Char := udigits.data.getD d '0'

/-- The base-16 branch of the integer formatter of `fmt`: digits are written
from the last position of the buffer backwards,
`for u >= 16 { buf[i] = digits[u&0xF]; u >>= 4 }`, followed by the leading digit
`digits[u]`. The first argument bounds the number of loop iterations; a 64-bit
value needs at most 15. -/
def fmtInteger : Nat → Nat → List Char → List Char
  | 0, u, buf => udigit u :: buf
  | fuel + 1, u, buf =>
    if u ≥ 16 then fmtInteger fuel (u / 16) (udigit (u % 16) :: buf)
    else udigit u :: buf

/-- Embedding of `fmt.Sprintf("%X", u)` for an unsigned integer `u`: upper-case
hexadecimal, no prefix, no padding. -/
def sprintfX (u : Nat) : String := String.mk (fmtInteger 16 u [])

/-- Go: `func (c Color) Hex() string { return fmt.Sprintf("%X", c) }`. -/
def Color.Hex (c : Color) : String := sprintfX c

/-- Go: `func (c Colors) Hex() (result string)`; the loop appends the digit of
every colour to `result`, which starts as the empty string. -/
def Colors.Hex (c : Colors) : String :=
  c.foldl (fun result indexedColor => result ++ Color.Hex indexedColor) ""

/-- Go: `func (c Chroma) Hex() string { return fmt.Sprintf("%X", c) }`. -/
def Chroma.Hex (c : Chroma) : String := sprintfX c

/-- Go: `func (l Luminance) Hex() string { return fmt.Sprintf("%X", l) }`. -/
def Luminance.Hex (l : Luminance) : String := sprintfX l

/-- Go: `func (m LightMap) Hex() (result string)`. -/
def LightMap.Hex (m : LightMap) : String :=
  m.foldl (fun result luminance => result ++ Luminance.Hex luminance) ""

/-! ## Reference palette -/

/-- Go: `color.RGBA`, four 8-bit channels. -/
structure RGBA where
  r : Nat
  g : Nat
  b : Nat
  a : Nat
deriving DecidableEq, Repr

/-- Go: `var ColorMap = map[color.RGBA]Color{...}`, entries in source order. -/
def ColorMap : List (RGBA × Color) := [
  (RGBA.mk 0x00 0x00 0x00 0xff, Black), (RGBA.mk 0xa1 0x88 0x7f 0xff, Brown),
  (RGBA.mk 0x8d 0x6e 0x63 0xff, Brown), (RGBA.mk 0xa0 0x7f 0x6c 0xff, Brown),
  (RGBA.mk 0x9b 0x7b 0x5b 0xff, Brown), (RGBA.mk 0x75 0x64 0x5b 0xff, Brown),
  (RGBA.mk 0x79 0x55 0x48 0xff, Brown), (RGBA.mk 0x6d 0x4c 0x41 0xff, Brown),
  (RGBA.mk 0x5d 0x40 0x37 0xff, Brown), (RGBA.mk 0x9b 0x61 0x36 0xff, Brown),
  (RGBA.mk 0xc1 0xa4 0x87 0xff, Brown), (RGBA.mk 0xaa 0x80 0x62 0xff, Brown),
  (RGBA.mk 0x6b 0x55 0x46 0xff, Brown), (RGBA.mk 0xb4 0xb5 0x9c 0xff, Brown),
  (RGBA.mk 0xb2 0xb4 0x9b 0xff, Green), (RGBA.mk 0xe0 0xe0 0xe0 0xff, Grey),
  (RGBA.mk 0x9E 0x9E 0x9E 0xff, Grey), (RGBA.mk 0x75 0x75 0x75 0xff, Grey),
  (RGBA.mk 0x61 0x61 0x61 0xff, Grey), (RGBA.mk 0x42 0x42 0x42 0xff, Grey),
  (RGBA.mk 0x84 0x7a 0x72 0xff, Grey), (RGBA.mk 0xdf 0xe0 0xe1 0xff, Grey),
  (RGBA.mk 0xFF 0xFF 0xFF 0xff, White), (RGBA.mk 0xe4 0xe4 0xe4 0xff, White),
  (RGBA.mk 0xe7 0xe7 0xe7 0xff, White), (RGBA.mk 0xf3 0xe5 0xf5 0xff, Purple),
  (RGBA.mk 0xe1 0xbe 0xe7 0xff, Purple), (RGBA.mk 0xce 0x93 0xd8 0xff, Purple),
  (RGBA.mk 0xba 0x68 0xc8 0xff, Purple), (RGBA.mk 0xab 0x47 0xbc 0xff, Purple),
  (RGBA.mk 0x9c 0x27 0xb0 0xff, Purple), (RGBA.mk 0x9b 0x31 0x8f 0xff, Purple),
  (RGBA.mk 0x86 0x00 0x7e 0xff, Purple), (RGBA.mk 0x8e 0x24 0xaa 0xff, Purple),
  (RGBA.mk 0x7b 0x1f 0xa2 0xff, Purple), (RGBA.mk 0x6a 0x1b 0x9a 0xff, Purple),
  (RGBA.mk 0x4a 0x14 0x8c 0xff, Purple), (RGBA.mk 0xaa 0x00 0xff 0xff, Purple),
  (RGBA.mk 0xed 0xe7 0xf6 0xff, Purple), (RGBA.mk 0xd1 0xc4 0xe9 0xff, Purple),
  (RGBA.mk 0xb3 0x9d 0xdb 0xff, Purple), (RGBA.mk 0x95 0x75 0xcd 0xff, Purple),
  (RGBA.mk 0x7e 0x57 0xc2 0xff, Purple), (RGBA.mk 0x5e 0x35 0xb1 0xff, Purple),
  (RGBA.mk 0x67 0x3a 0xb7 0xff, Purple), (RGBA.mk 0x51 0x2d 0xa8 0xff, Purple),
  (RGBA.mk 0x45 0x27 0xa0 0xff, Purple), (RGBA.mk 0x31 0x1b 0x92 0xff, Purple),
  (RGBA.mk 0xb3 0x88 0xff 0xff, Purple), (RGBA.mk 0x7c 0x4d 0xff 0xff, Purple),
  (RGBA.mk 0x8e 0x64 0x93 0xff, Purple), (RGBA.mk 0x5e 0x3a 0x5e 0xff, Purple),
  (RGBA.mk 0x44 0x0e 0x79 0xff, Purple), (RGBA.mk 0x48 0x36 0x78 0xff, Purple),
  (RGBA.mk 0x4e 0x38 0x80 0xff, Purple), (RGBA.mk 0x3b 0x0e 0x79 0xff, Purple),
  (RGBA.mk 0x3F 0x51 0xB5 0xff, Blue), (RGBA.mk 0xc5 0xca 0xe9 0xff, Blue),
  (RGBA.mk 0x5c 0x6b 0xc0 0xff, Blue), (RGBA.mk 0x39 0x49 0xab 0xff, Blue),
  (RGBA.mk 0x30 0x3f 0x9f 0xff, Blue), (RGBA.mk 0x28 0x35 0x93 0xff, Blue),
  (RGBA.mk 0x1a 0x23 0x7e 0xff, Blue), (RGBA.mk 0x53 0x6d 0xfe 0xff, Blue),
  (RGBA.mk 0x3d 0x5a 0xfe 0xff, Blue), (RGBA.mk 0x30 0x4f 0xfe 0xff, Blue),
  (RGBA.mk 0x21 0x96 0xF3 0xff, Blue), (RGBA.mk 0xbb 0xde 0xfb 0xff, Blue),
  (RGBA.mk 0x90 0xca 0xf9 0xff, Blue), (RGBA.mk 0x64 0xb5 0xf6 0xff, Blue),
  (RGBA.mk 0x42 0xa5 0xf5 0xff, Blue), (RGBA.mk 0x1e 0x88 0xe5 0xff, Blue),
  (RGBA.mk 0x19 0x76 0xd2 0xff, Blue), (RGBA.mk 0x15 0x65 0xc0 0xff, Blue),
  (RGBA.mk 0x0d 0x47 0xa1 0xff, Blue), (RGBA.mk 0x82 0xb1 0xff 0xff, Blue),
  (RGBA.mk 0x44 0x8a 0xff 0xff, Blue), (RGBA.mk 0x29 0x79 0xff 0xff, Blue),
  (RGBA.mk 0x29 0x62 0xff 0xff, Blue), (RGBA.mk 0x03 0xa9 0xf6 0xff, Blue),
  (RGBA.mk 0xb3 0xe5 0xfc 0xff, Blue), (RGBA.mk 0x81 0xd4 0xfa 0xff, Blue),
  (RGBA.mk 0x4f 0xc3 0xf7 0xff, Blue), (RGBA.mk 0x29 0xb6 0xf6 0xff, Blue),
  (RGBA.mk 0x03 0x9b 0xe5 0xff, Blue), (RGBA.mk 0x02 0x88 0xd1 0xff, Blue),
  (RGBA.mk 0x02 0x77 0xbd 0xff, Blue), (RGBA.mk 0x01 0x57 0x9b 0xff, Blue),
  (RGBA.mk 0x80 0xd8 0xff 0xff, Blue), (RGBA.mk 0x40 0xc4 0xff 0xff, Blue),
  (RGBA.mk 0x00 0xb0 0xff 0xff, Blue), (RGBA.mk 0x00 0x91 0xea 0xff, Blue),
  (RGBA.mk 0x60 0x7d 0x8b 0xff, Blue), (RGBA.mk 0x78 0x90 0x9c 0xff, Blue),
  (RGBA.mk 0x54 0x6e 0x7a 0xff, Blue), (RGBA.mk 0x37 0x47 0x4f 0xff, Blue),
  (RGBA.mk 0xe4 0xeb 0xfd 0xff, Blue), (RGBA.mk 0x7d 0xd3 0xea 0xff, Blue),
  (RGBA.mk 0x07 0x63 0x99 0xff, Blue), (RGBA.mk 0x28 0x44 0x6b 0xff, Blue),
  (RGBA.mk 0x4a 0xc8 0xf5 0xff, Blue), (RGBA.mk 0x08 0x00 0xf4 0xff, Blue),
  (RGBA.mk 0x01 0x2d 0x5f 0xff, Blue), (RGBA.mk 0xb2 0xeb 0xf2 0xff, Cyan),
  (RGBA.mk 0x80 0xde 0xea 0xff, Cyan), (RGBA.mk 0x4d 0xd0 0xe1 0xff, Cyan),
  (RGBA.mk 0x26 0xc6 0xda 0xff, Cyan), (RGBA.mk 0x00 0xb8 0xd4 0xff, Cyan),
  (RGBA.mk 0x00 0xBC 0xD4 0xff, Cyan), (RGBA.mk 0x00 0xac 0xc1 0xff, Cyan),
  (RGBA.mk 0x00 0x97 0xa7 0xff, Cyan), (RGBA.mk 0x00 0x83 0x8f 0xff, Cyan),
  (RGBA.mk 0x00 0x60 0x64 0xff, Cyan), (RGBA.mk 0x84 0xff 0xff 0xff, Cyan),
  (RGBA.mk 0x18 0xff 0xff 0xff, Cyan), (RGBA.mk 0x00 0xe5 0xff 0xff, Cyan),
  (RGBA.mk 0x00 0x96 0x88 0xff, Teal), (RGBA.mk 0x00 0x89 0x7b 0xff, Teal),
  (RGBA.mk 0x00 0x79 0x6b 0xff, Teal), (RGBA.mk 0x00 0x69 0x5c 0xff, Teal),
  (RGBA.mk 0x04 0x5d 0x5c 0xff, Teal), (RGBA.mk 0x24 0x5a 0x5f 0xff, Teal),
  (RGBA.mk 0x03 0x45 0x4f 0xff, Teal), (RGBA.mk 0x2c 0x54 0x5e 0xff, Teal),
  (RGBA.mk 0x17 0x47 0x41 0xff, Teal), (RGBA.mk 0xe8 0xf5 0xe9 0xff, Green),
  (RGBA.mk 0xc8 0xe6 0xc9 0xff, Green), (RGBA.mk 0xab 0xc7 0xb0 0xff, Green),
  (RGBA.mk 0xa5 0xd6 0xa7 0xff, Green), (RGBA.mk 0x81 0xc7 0x84 0xff, Green),
  (RGBA.mk 0x66 0xbb 0x6a 0xff, Green), (RGBA.mk 0x4C 0xAF 0x50 0xff, Green),
  (RGBA.mk 0x43 0xa0 0x47 0xff, Green), (RGBA.mk 0x38 0x8e 0x3c 0xff, Green),
  (RGBA.mk 0x2e 0x7d 0x32 0xff, Green), (RGBA.mk 0x1b 0x5e 0x20 0xff, Green),
  (RGBA.mk 0xf1 0xf8 0xe9 0xff, Green), (RGBA.mk 0xdc 0xed 0xc8 0xff, Green),
  (RGBA.mk 0xc5 0xe1 0xa5 0xff, Green), (RGBA.mk 0xae 0xd5 0x81 0xff, Green),
  (RGBA.mk 0x8b 0xc3 0x4a 0xff, Green), (RGBA.mk 0x9c 0xcc 0x65 0xff, Green),
  (RGBA.mk 0x7c 0xb3 0x42 0xff, Green), (RGBA.mk 0x68 0x9f 0x38 0xff, Green),
  (RGBA.mk 0x55 0x8b 0x2f 0xff, Green), (RGBA.mk 0x33 0x69 0x1e 0xff, Green),
  (RGBA.mk 0xb9 0xf6 0xca 0xff, Green), (RGBA.mk 0x69 0xf0 0xae 0xff, Green),
  (RGBA.mk 0x00 0xc8 0x53 0xff, Green), (RGBA.mk 0x00 0xe6 0x76 0xff, Green),
  (RGBA.mk 0xcc 0xff 0x90 0xff, Green), (RGBA.mk 0xb2 0xff 0x59 0xff, Green),
  (RGBA.mk 0x76 0xff 0x03 0xff, Green), (RGBA.mk 0x64 0xdd 0x17 0xff, Green),
  (RGBA.mk 0xdd 0xd5 0x79 0xff, Green), (RGBA.mk 0xee 0xec 0xa2 0xff, Green),
  (RGBA.mk 0x24 0x4e 0x3b 0xff, Green), (RGBA.mk 0x9a 0x9d 0x47 0xff, Green),
  (RGBA.mk 0xbe 0xbd 0x76 0xff, Green), (RGBA.mk 0x5c 0x5a 0x30 0xff, Green),
  (RGBA.mk 0xb3 0xc1 0x6c 0xff, Green), (RGBA.mk 0xac 0xa7 0x83 0xff, Green),
  (RGBA.mk 0x47 0x4c 0x25 0xff, Green), (RGBA.mk 0xcd 0xd0 0x87 0xff, Green),
  (RGBA.mk 0x79 0x6d 0x41 0xff, Green), (RGBA.mk 0xf0 0xf4 0xc3 0xff, Lime),
  (RGBA.mk 0xe6 0xee 0x9c 0xff, Lime), (RGBA.mk 0xdc 0xe7 0x75 0xff, Lime),
  (RGBA.mk 0xd4 0xe1 0x57 0xff, Lime), (RGBA.mk 0xCD 0xDC 0x39 0xff, Lime),
  (RGBA.mk 0xc0 0xca 0x33 0xff, Lime), (RGBA.mk 0xaf 0xb4 0x2b 0xff, Lime),
  (RGBA.mk 0xee 0xff 0x41 0xff, Lime), (RGBA.mk 0xc6 0xff 0x00 0xff, Lime),
  (RGBA.mk 0xae 0xea 0x00 0xff, Lime), (RGBA.mk 0xff 0xf9 0xc4 0xff, Yellow),
  (RGBA.mk 0xff 0xf5 0x9d 0xff, Yellow), (RGBA.mk 0xff 0xf1 0x76 0xff, Yellow),
  (RGBA.mk 0xff 0xee 0x58 0xff, Yellow), (RGBA.mk 0xff 0xff 0x8d 0xff, Yellow),
  (RGBA.mk 0xff 0xff 0x00 0xff, Yellow), (RGBA.mk 0xff 0xd5 0x4f 0xff, Yellow),
  (RGBA.mk 0xff 0xca 0x28 0xff, Yellow), (RGBA.mk 0xe3 0xce 0x81 0xff, Yellow),
  (RGBA.mk 0xd1 0xaf 0x52 0xff, Yellow), (RGBA.mk 0xee 0xbb 0x2b 0xff, Yellow),
  (RGBA.mk 0xd3 0xa8 0x3a 0xff, Yellow), (RGBA.mk 0xc5 0xa7 0x02 0xff, Yellow),
  (RGBA.mk 0x9f 0x82 0x01 0xff, Yellow), (RGBA.mk 0xe8 0xce 0x03 0xff, Yellow),
  (RGBA.mk 0xf9 0xa8 0x25 0xff, Orange), (RGBA.mk 0xFF 0x98 0x00 0xff, Orange),
  (RGBA.mk 0xff 0xa7 0x26 0xff, Orange), (RGBA.mk 0xfb 0x8c 0x00 0xff, Orange),
  (RGBA.mk 0xf5 0x7c 0x00 0xff, Orange), (RGBA.mk 0xef 0x6c 0x00 0xff, Orange),
  (RGBA.mk 0xff 0x91 0x00 0xff, Orange), (RGBA.mk 0xff 0x6d 0x00 0xff, Orange),
  (RGBA.mk 0xfd 0x9a 0x31 0xff, Orange), (RGBA.mk 0x7d 0x27 0x04 0xff, Orange),
  (RGBA.mk 0xfd 0x57 0x1f 0xff, Orange), (RGBA.mk 0xf8 0x67 0x04 0xff, Orange),
  (RGBA.mk 0xfd 0x9a 0x00 0xff, Orange), (RGBA.mk 0xfe 0x8a 0x00 0xff, Orange),
  (RGBA.mk 0xf1 0x96 0x52 0xff, Orange), (RGBA.mk 0xe5 0x83 0x47 0xff, Orange),
  (RGBA.mk 0xc9 0x4c 0x30 0xff, Orange), (RGBA.mk 0x9f 0x56 0x01 0xff, Orange),
  (RGBA.mk 0xfa 0x68 0x01 0xff, Orange), (RGBA.mk 0xbb 0x72 0x3d 0xff, Orange),
  (RGBA.mk 0xff 0x52 0x52 0xff, Red), (RGBA.mk 0xf4 0x43 0x36 0xff, Red),
  (RGBA.mk 0xef 0x53 0x50 0xff, Red), (RGBA.mk 0xe5 0x39 0x35 0xff, Red),
  (RGBA.mk 0xf6 0x29 0x2e 0xff, Red), (RGBA.mk 0xfc 0x25 0x2d 0xff, Red),
  (RGBA.mk 0xd3 0x2f 0x2f 0xff, Red), (RGBA.mk 0xc6 0x28 0x28 0xff, Red),
  (RGBA.mk 0xba 0x28 0x30 0xff, Red), (RGBA.mk 0xb7 0x1c 0x1c 0xff, Red),
  (RGBA.mk 0xd5 0x00 0x00 0xff, Red), (RGBA.mk 0xdb 0x08 0x06 0xff, Red),
  (RGBA.mk 0xcf 0x09 0x04 0xff, Red), (RGBA.mk 0xd8 0x1a 0x14 0xff, Red),
  (RGBA.mk 0xcc 0x17 0x08 0xff, Red), (RGBA.mk 0xd8 0x0a 0x07 0xff, Red),
  (RGBA.mk 0xde 0x26 0x16 0xff, Red), (RGBA.mk 0xee 0x24 0x0f 0xff, Red),
  (RGBA.mk 0xa1 0x21 0x1f 0xff, Red), (RGBA.mk 0x70 0x12 0x19 0xff, Red),
  (RGBA.mk 0x51 0x12 0x18 0xff, Red), (RGBA.mk 0x49 0x11 0x14 0xff, Red),
  (RGBA.mk 0xfc 0xe4 0xec 0xff, Pink), (RGBA.mk 0xfd 0xc8 0xeb 0xff, Pink),
  (RGBA.mk 0xe7 0x9f 0xa6 0xff, Pink), (RGBA.mk 0xf8 0xbb 0xd0 0xff, Pink),
  (RGBA.mk 0xf4 0x8f 0xb1 0xff, Pink), (RGBA.mk 0xff 0x80 0xab 0xff, Pink),
  (RGBA.mk 0xff 0x40 0x81 0xff, Pink), (RGBA.mk 0xf5 0x00 0x57 0xff, Pink),
  (RGBA.mk 0xf0 0x62 0x92 0xff, Pink), (RGBA.mk 0xec 0x40 0x7a 0xff, Pink),
  (RGBA.mk 0xe9 0x1e 0x63 0xff, Pink), (RGBA.mk 0xd8 0x1b 0x60 0xff, Pink),
  (RGBA.mk 0xc2 0x18 0x5b 0xff, Pink), (RGBA.mk 0xff 0x00 0xff 0xff, Magenta),
  (RGBA.mk 0xe5 0x00 0xe5 0xff, Magenta), (RGBA.mk 0xf0 0x00 0xb5 0xff, Magenta),
  (RGBA.mk 0xce 0x00 0x9b 0xff, Magenta), (RGBA.mk 0xc0 0x05 0x5b 0xff, Magenta),
  (RGBA.mk 0xb0 0x00 0x85 0xff, Magenta), (RGBA.mk 0xa8 0x28 0x63 0xff, Magenta),
  (RGBA.mk 0x5b 0x00 0x2f 0xff, Magenta), (RGBA.mk 0x4b 0x01 0x21 0xff, Magenta),
  (RGBA.mk 0x86 0x02 0x25 0xff, Magenta), (RGBA.mk 0xcb 0x02 0x3d 0xff, Magenta),
  (RGBA.mk 0x64 0x07 0x1a 0xff, Magenta), (RGBA.mk 0x9e 0x00 0x47 0xff, Magenta),
  (RGBA.mk 0xdc 0x7a 0xcf 0xff, Magenta), (RGBA.mk 0xed 0xde 0xac 0xff, Gold),
  (RGBA.mk 0xe8 0xb4 0x51 0xff, Gold), (RGBA.mk 0xc0 0x8a 0x3e 0xff, Gold),
  (RGBA.mk 0xa2 0x7d 0x4b 0xff, Gold), (RGBA.mk 0x75 0x55 0x31 0xff, Gold),
  (RGBA.mk 0xd1 0x93 0x27 0xff, Gold), (RGBA.mk 0xde 0xa2 0x53 0xff, Gold),
  (RGBA.mk 0xd5 0xaa 0x6f 0xff, Gold), (RGBA.mk 0xf5 0xea 0xd4 0xff, Gold)
]

/-! ## Nearest-category classifier -/

/-- One iteration of the loop body of `Colorful`. The state is the pair
`(distance, result)`; `currentDistance` is the distance of the reference colour
of the visited entry to the input colour. -/
def ColorfulStep (currentDistance : RGBA → ℚ) (st : ℚ × Color) (e : RGBA × Color) :
    ℚ × Color :=
  if st.1 ≥ currentDistance e.1 then (currentDistance e.1, e.2) else st

/-- The loop `for rgba, i := range ColorMap` of `Colorful`, run over the entries
in the order the map iteration visits them. -/
def ColorfulLoop (currentDistance : RGBA → ℚ) (order : List (RGBA × Color))
    (st : ℚ × Color) : ℚ × Color :=
  order.foldl (ColorfulStep currentDistance) st

/-- Go: `func Colorful(actualColor colorful.Color) (result Color)`.
`distance` starts at `1.0` and `result` at its zero value `Black`. `MakeColor`
and `DistanceLab` are the library functions, `order` the iteration order of
`ColorMap`. -/
def Colorful {C : Type} (MakeColor : RGBA → C) (DistanceLab : C → C → ℚ)
    (order : List (RGBA × Color)) (actualColor : C) : Color :=
  (ColorfulLoop (fun rgba => DistanceLab (MakeColor rgba) actualColor) order (1, Black)).2

/-! ## A sample colour space

`MakeColor` and `DistanceLab` are parameters of `Colorful`. The definitions below
give one concrete instance, used to evaluate `Colorful` on explicit inputs: colours
are integer RGB points and the distance is the squared Euclidean distance, scaled
so that black and white are at distance `1`. -/

/-- A point of the sample colour space. -/
structure RGB where
  r : Nat
  g : Nat
  b : Nat
deriving DecidableEq, Repr

/-- Sample instance of `colorful.MakeColor`: drops the alpha channel. -/
def sampleMakeColor (c : RGBA) : RGB := ⟨c.r, c.g, c.b⟩

/-- Squared difference of two channel values. -/
def sqDiff (x y : Nat) : Nat := (x - y + (y - x)) ^ 2

/-- Sample instance of `DistanceLab`: squared Euclidean distance divided by
`3 * 255 ^ 2`. -/
def sampleDistance (p q : RGB) : ℚ :=
  ((sqDiff p.r q.r + sqDiff p.g q.g + sqDiff p.b q.b : ℕ) : ℚ) / 195075

/-- A second sample instance of `DistanceLab`, for inputs far outside the gamut.
In `float64` the subtraction of a coordinate of the input from the coordinate of
a reference colour returns the negated coordinate of the input once the input is
large enough: the reference colour is absorbed by rounding, and every reference
colour is at the same distance, that of the input from the origin. -/
def absorbedDistance (_p q : RGB) : ℚ :=
  sampleDistance ⟨0, 0, 0⟩ q

/-! ## Decoders of the persisted strings

The repository has no decoder; the two below follow the specification of the
compact encoder/decoder and are used to state the round-trip properties. -/

/-- Value of one upper-case hexadecimal digit, `none` for any other character. -/
def hexVal (ch : Char) : Option Nat :=
  if '0' ≤ ch ∧ ch ≤ '9' then some (ch.toNat - '0'.toNat)
  else if 'A' ≤ ch ∧ ch ≤ 'F' then some (ch.toNat - 'A'.toNat + 10)
  else none

/-- Modelled from the spec: `decode_categories(string) -> sequence` is missing
from the sources. One hexadecimal digit per category; the decoding fails
(`none`) when a character lies outside `[0-9A-F]`. -/
def decode_categories_chars : List Char → Option Colors
  | [] => some []
  | ch :: rest =>
    match hexVal ch, decode_categories_chars rest with
    | some v, some vs => some (v :: vs)
    | _, _ => none

/-- Modelled from the spec: `decode_categories` on a string. -/
def decode_categories (s : String) : Option Colors := decode_categories_chars s.data

/-- Modelled from the spec: `decode_brightness(string) -> sequence` is missing
from the sources. Two hexadecimal digits per sample, high nibble first; the
decoding fails (`none`) on odd length or on a character outside `[0-9A-F]`. -/
def decode_brightness_chars : List Char → Option LightMap
  | [] => some []
  | [_] => none
  | hi :: lo :: rest =>
    match hexVal hi, hexVal lo, decode_brightness_chars rest with
    | some h, some l, some vs => some ((16 * h + l) :: vs)
    | _, _, _ => none

/-- Modelled from the spec: `decode_brightness` on a string. -/
def decode_brightness (s : String) : Option LightMap := decode_brightness_chars s.data

/-- The characters `%X` writes for a byte: one digit below 16, two digits (high
nibble first) from 16 on. -/
def byteDigits (v : Nat) : List Char :=
  if v < 16 then [udigit v] else [udigit (v / 16), udigit (v % 16)]

/-! ## Category registry and presentation -/

/-- Go: `var All = Colors{...}`, the listing order of the categories. -/
def All : Colors :=
  [Red, Magenta, Pink, Orange, Gold, Yellow, Lime, Green, Teal, Cyan, Blue, Purple, Brown,
    White, Grey, Black]

/-- Go: `var Names = map[Color]string{...}`, entries in source order. -/
def Names : List (Color × String) := [
  (Black, "dark"),
  (Brown, "brown"),
  (Grey, "grey"),
  (White, "bright"),
  (Purple, "purple"),
  (Gold, "gold"),
  (Blue, "blue"),
  (Cyan, "cyan"),
  (Teal, "teal"),
  (Green, "green"),
  (Lime, "lime"),
  (Yellow, "yellow"),
  (Magenta, "magenta"),
  (Orange, "orange"),
  (Red, "red"),
  (Pink, "pink")
]

/-- Go: `var Weights = map[Color]uint16{...}`, entries in source order. -/
def Weights : List (Color × Nat) := [
  (Black, 2),
  (Brown, 2),
  (Grey, 1),
  (White, 2),
  (Purple, 4),
  (Gold, 4),
  (Blue, 3),
  (Cyan, 4),
  (Teal, 4),
  (Green, 3),
  (Lime, 5),
  (Yellow, 5),
  (Magenta, 5),
  (Orange, 4),
  (Red, 4),
  (Pink, 4)
]

/-- Go: `var ColorExamples = map[Color]string{...}`, entries in source order. -/
def ColorExamples : List (Color × String) := [
  (Red, "#E57373"),
  (Magenta, "#FF00FF"),
  (Pink, "#F06292"),
  (Orange, "#FFB74D"),
  (Brown, "#A1887F"),
  (Gold, "#FFD54F"),
  (Yellow, "#FFF176"),
  (Lime, "#DCE775"),
  (Green, "#81C784"),
  (Teal, "#4DB6AC"),
  (Cyan, "#4DD0E1"),
  (Blue, "#64B5F6"),
  (Purple, "#BA68C8"),
  (White, "#F5F5F5"),
  (Grey, "#BDBDBD"),
  (Black, "#333333")
]

/-- Go's map index expression `m[k]`: the value stored under the key `k`, or the
zero value of the value type when the map has no such key. -/
def mapIndex {K V : Type} [BEq K] (zero : V) (m : List (K × V)) (k : K) : V :=
  (m.lookup k).getD zero

/-- Go: `func (c Color) Name() string { return Names[c] }`. -/
def Color.Name (c : Color) : String := mapIndex "" Names c

/-- Go's `unicode.IsSpace` outside ASCII: U+0085, U+00A0, U+1680, U+2000 to
U+200A, U+2028, U+2029, U+202F, U+205F and U+3000. -/
def isSpaceNonASCII (r : Char) : Bool :=
  r.toNat = 0x85 || r.toNat = 0xA0 || r.toNat = 0x1680 ||
    (0x2000 ≤ r.toNat && r.toNat ≤ 0x200A) || r.toNat = 0x2028 || r.toNat = 0x2029 ||
    r.toNat = 0x202F || r.toNat = 0x205F || r.toNat = 0x3000

/-- Go: `isSeparator` of package `strings`. ASCII letters, digits and the
underscore are not separators, every other ASCII character is; outside ASCII,
letters and digits are not separators and the remaining characters are
separators exactly when they are spaces. -/
def isSeparator (r : Char) : Bool :=
  if r.toNat ≤ 0x7F then
    if '0' ≤ r ∧ r ≤ '9' then false
    else if 'a' ≤ r ∧ r ≤ 'z' then false
    else if 'A' ≤ r ∧ r ≤ 'Z' then false
    else if r = '_' then false
    else true
  else isSpaceNonASCII r

/-- Go: `unicode.ToTitle` on ASCII, where it maps `a`..`z` to `A`..`Z` and leaves
the other characters unchanged. Characters outside ASCII are left unchanged by
this embedding. -/
def toTitle (r : Char) : Char :=
  if 'a' ≤ r ∧ r ≤ 'z' then Char.ofNat (r.toNat - 32) else r

/-- The mapping closure of `strings.Title`: `prev` is the previous character
(initially a space); a character that follows a separator is title-cased. -/
def TitleChars : Char → List Char → List Char
  | _, [] => []
  | prev, r :: rest => (if isSeparator prev then toTitle r else r) :: TitleChars r rest

/-- Go: `strings.Title(s)`. -/
def Title (s : String) : String := String.mk (TitleChars ' ' s.data)

/-- Go: `func (c Colors) List() []map[string]string`. The loop appends one map
literal per colour; a map literal is embedded as the list of its key/value
pairs. -/
def Colors.List (c : Colors) : List (List (String × String)) :=
  c.foldl
    (fun result c =>
      result ++ [[("name", Color.Name c), ("label", Title (Color.Name c)),
        ("example", mapIndex "" ColorExamples c)]])
    []

/-- The opaque colour denoted by a swatch string `#RRGGBB` (upper-case
hexadecimal), `none` when the string has another shape. -/
def swatchColor (s : String) : Option RGBA :=
  match s.data with
  | [] => none
  | h :: rest =>
    if h = '#' then
      match decode_brightness_chars rest with
      | some [r, g, b] => some ⟨r, g, b, 0xff⟩
      | _ => none
    else none

end colors

/-! ## Default user accounts (package `entity`)

A shallow embedding of `internal/entity/auth_user_default.go`. The package-level
variables `Admin`, `UnknownUser` and `Visitor` form the state on which
`CreateDefaultUsers` operates. The database functions `FindUser`,
`FindLegacyUser`, `User.Create` and `FirstOrCreateUser`, the role names and
`GenerateToken` are not part of the sources and are taken as parameters.
Logging has no effect on the state and is left out. -/

namespace entity

/-- Go: the `User` entity, with the fields that `auth_user_default.go` reads or
writes. `LoginAt` is a nullable time stamp. -/
structure User where
  ID : Int
  UserUID : String
  UserName : String
  UserEmail : String
  UserRole : String
  DisplayName : String
  SuperAdmin : Bool
  CanLogin : Bool
  WebDAV : Bool
  CanInvite : Bool
  InviteToken : String
  PreviewToken : String
  DownloadToken : String
  LoginAt : Option Nat
deriving DecidableEq, Repr

/-- The record returned by `FindLegacyUser`, with the fields that
`CreateDefaultUsers` copies from it. -/
structure LegacyUser where
  UserUID : String
  UserName : String
  PrimaryEmail : String
  FullName : String
  LoginAt : Option Nat
deriving DecidableEq, Repr

/-- Go: `AdminUserName = "admin"`. -/
def AdminUserName : String := "admin"

/-- Go: `AdminDisplayName = "Admin"`. -/
def AdminDisplayName : String := "Admin"

/-- Go: `VisitorDisplayName = "Visitor"`. -/
def VisitorDisplayName : String := "Visitor"

/-- Go: `UnknownDisplayName = "Unknown"`. -/
def UnknownDisplayName : String := "Unknown"

/-- Go: `var Admin = User{...}`, the default admin user. The arguments stand for
`acl.RoleAdmin.String()` and the three results of `GenerateToken()`; the fields
that the literal does not mention have their zero value. -/
def Admin (roleAdmin inviteToken previewToken downloadToken : String) : User where
  ID := 1
  UserUID := ""
  UserName := AdminUserName
  UserEmail := ""
  UserRole := roleAdmin
  DisplayName := AdminDisplayName
  SuperAdmin := true
  CanLogin := true
  WebDAV := true
  CanInvite := true
  InviteToken := inviteToken
  PreviewToken := previewToken
  DownloadToken := downloadToken
  LoginAt := none

/-- Go: `var UnknownUser = User{...}`; the argument stands for
`acl.RoleUnknown.String()`. -/
def UnknownUser (roleUnknown : String) : User where
  ID := -1
  UserUID := "u000000000000001"
  UserName := ""
  UserEmail := ""
  UserRole := roleUnknown
  DisplayName := UnknownDisplayName
  SuperAdmin := false
  CanLogin := false
  WebDAV := false
  CanInvite := false
  InviteToken := ""
  PreviewToken := ""
  DownloadToken := ""
  LoginAt := none

/-- Go: `var Visitor = User{...}`; the argument stands for
`acl.RoleVisitor.String()`. -/
def Visitor (roleVisitor : String) : User where
  ID := -2
  UserUID := "u000000000000002"
  UserName := ""
  UserEmail := ""
  UserRole := roleVisitor
  DisplayName := VisitorDisplayName
  SuperAdmin := false
  CanLogin := false
  WebDAV := false
  CanInvite := false
  InviteToken := ""
  PreviewToken := ""
  DownloadToken := ""
  LoginAt := none

/-- The package-level variables that `CreateDefaultUsers` reads and assigns. -/
structure Globals where
  Admin : User
  UnknownUser : User
  Visitor : User
deriving DecidableEq, Repr

/-- What a run of `CreateDefaultUsers` leaves behind: the package-level variables
after the call, and the value of `Admin` on which `Create` was called, if it was
called. -/
structure Outcome where
  globals : Globals
  created : Option User
deriving DecidableEq, Repr

/-- The block `// Set legacy values.`: when `FindLegacyUser` returns a record,
five fields of `Admin` are overwritten with its values. -/
def setLegacyValues (admin : User) (leg : Option LegacyUser) : User :=
  match leg with
  | some l =>
    { admin with
      UserUID := l.UserUID
      UserName := l.UserName
      UserEmail := l.PrimaryEmail
      DisplayName := l.FullName
      LoginAt := l.LoginAt }
  | none => admin

/-- The block `// Set default values.`. -/
def setDefaultValues (admin : User) : User :=
  { admin with SuperAdmin := true, CanLogin := true, WebDAV := true }

/-- The block `// Username is required.`. -/
def requireUserName (admin : User) : User :=
  if admin.UserName = "" then { admin with UserName := "admin" } else admin

/-- The assignment `if user := FirstOrCreateUser(&v); user != nil { v = *user }`.
The function receives a pointer, so its embedding returns the value of the
variable after the call together with the returned pointer. -/
def assignFirstOrCreate (FirstOrCreateUser : User → User × Option User) (v : User) : User :=
  match (FirstOrCreateUser v).2 with
  | some user => user
  | none => (FirstOrCreateUser v).1

/-- Go: `func CreateDefaultUsers()`. `Create` returns the receiver after the call
and whether an error occurred; the error is only reported. -/
def CreateDefaultUsers (FindUser : User → Option User)
    (FindLegacyUser : User → Option LegacyUser) (Create : User → User × Bool)
    (FirstOrCreateUser : User → User × Option User) (g : Globals) : Outcome :=
  let adminBranch : User × Option User :=
    match FindUser g.Admin with
    | some admin => (admin, none)
    | none =>
      let handed :=
        requireUserName (setDefaultValues (setLegacyValues g.Admin (FindLegacyUser g.Admin)))
      ((Create handed).1, some handed)
  { globals :=
      { Admin := adminBranch.1
        UnknownUser := assignFirstOrCreate FirstOrCreateUser g.UnknownUser
        Visitor := assignFirstOrCreate FirstOrCreateUser g.Visitor }
    created := adminBranch.2 }

end entity

namespace colors

/-! ## Lemmas on `%X` and on the concatenation loops -/

theorem byte_nibbles (u : Nat) (h : u < 256) : u / 16 < 16 ∧ u % 16 < 16 := by
  omega

theorem fmtInteger_small (fuel u : Nat) (buf : List Char) (h : u < 16) :
    fmtInteger fuel u buf = udigit u :: buf := by
  cases fuel with
  | zero => rfl
  | succ n => simp [fmtInteger, Nat.not_le.mpr h]

/-- Sixteen digits are enough for every 64-bit value: one more unit of fuel does
not change the output, so the loop bound is never what ends the formatting. -/
theorem fmtInteger_fuel_enough (fuel u : Nat) (buf : List Char) (h : u < 16 ^ (fuel + 1)) :
    fmtInteger (fuel + 1) u buf = fmtInteger fuel u buf := by
  induction fuel generalizing u buf with
  | zero => rw [fmtInteger_small _ _ _ (by simpa using h), fmtInteger_small _ _ _ (by simpa using h)]
  | succ n ih =>
    by_cases h16 : 16 ≤ u
    · have hq : u / 16 < 16 ^ (n + 1) := by
        rw [Nat.div_lt_iff_lt_mul (by decide)]
        calc u < 16 ^ (n + 1 + 1) := h
          _ = 16 ^ (n + 1) * 16 := by rw [pow_succ]
      rw [fmtInteger, if_pos h16, ih _ _ hq]
      conv_rhs => rw [fmtInteger, if_pos h16]
    · have hlt : u < 16 := Nat.lt_of_not_le h16
      rw [fmtInteger_small _ _ _ hlt, fmtInteger_small _ _ _ hlt]

theorem sprintfX_data_small (u : Nat) (h : u < 16) : (sprintfX u).data = [udigit u] := by
  simp [sprintfX, fmtInteger_small _ _ _ h]

theorem sprintfX_data_byte (u : Nat) (h16 : 16 ≤ u) (h : u < 256) :
    (sprintfX u).data = [udigit (u / 16), udigit (u % 16)] := by
  have hq : u / 16 < 16 := by omega
  simp only [sprintfX]
  rw [show (16 : Nat) = 15 + 1 from rfl, fmtInteger, if_pos h16, fmtInteger_small _ _ _ hq]

theorem sprintfX_data_byteDigits (u : Nat) (h : u < 256) :
    (sprintfX u).data = byteDigits u := by
  unfold byteDigits
  split
  · next h16 => exact sprintfX_data_small u h16
  · next h16 => exact sprintfX_data_byte u (Nat.le_of_not_lt h16) h

theorem foldl_append_data {α : Type} (f : α → String) (l : List α) (init : String) :
    (l.foldl (fun result x => result ++ f x) init).data
      = init.data ++ (l.map (fun x => (f x).data)).flatten := by
  induction l generalizing init with
  | nil => simp
  | cons x xs ih => simp [List.foldl_cons, ih, String.data_append, List.append_assoc]

theorem Colors_Hex_data (s : Colors) :
    (Colors.Hex s).data = (s.map (fun c => (Color.Hex c).data)).flatten := by
  simp [Colors.Hex, foldl_append_data]

theorem LightMap_Hex_data (m : LightMap) :
    (LightMap.Hex m).data = (m.map (fun l => (Luminance.Hex l).data)).flatten := by
  simp [LightMap.Hex, foldl_append_data]

theorem flatten_map_singleton {α β : Type} (f : α → β) (l : List α) :
    (l.map (fun x => [f x])).flatten = l.map f := by
  induction l with
  | nil => rfl
  | cons x xs ih => simp [ih]

theorem Colors_Hex_data_valid (s : Colors) (hs : ∀ c ∈ s, c < 16) :
    (Colors.Hex s).data = s.map udigit := by
  have hmap : s.map (fun c => (Color.Hex c).data) = s.map (fun c => [udigit c]) :=
    List.map_congr_left (fun c hc => sprintfX_data_small c (hs c hc))
  rw [Colors_Hex_data, hmap, flatten_map_singleton]

theorem LightMap_Hex_data_small (m : LightMap) (hm : ∀ l ∈ m, l < 16) :
    (LightMap.Hex m).data = m.map udigit := by
  have hmap : m.map (fun l => (Luminance.Hex l).data) = m.map (fun l => [udigit l]) :=
    List.map_congr_left (fun l hl => sprintfX_data_small l (hm l hl))
  rw [LightMap_Hex_data, hmap, flatten_map_singleton]

theorem LightMap_Hex_data_byteDigits (m : LightMap) (hm : ∀ l ∈ m, l < 256) :
    (LightMap.Hex m).data = (m.map byteDigits).flatten := by
  rw [LightMap_Hex_data]
  congr 1
  apply List.map_congr_left
  intro l hl
  exact sprintfX_data_byteDigits l (hm l hl)

theorem udigit_eq_table : ∀ d < 16, "0123456789ABCDEF".data[d]? = some (udigit d) := by
  decide

theorem hexVal_udigit : ∀ d < 16, hexVal (udigit d) = some d := by
  decide

theorem decode_categories_chars_map_udigit (s : List Nat) (hs : ∀ c ∈ s, c < 16) :
    decode_categories_chars (s.map udigit) = some s := by
  induction s with
  | nil => rfl
  | cons x xs ih =>
    have hx : x < 16 := hs x (List.mem_cons_self _ _)
    have hxs : ∀ c ∈ xs, c < 16 := fun c hc => hs c (List.mem_cons_of_mem _ hc)
    simp [decode_categories_chars, hexVal_udigit x hx, ih hxs]

theorem decode_brightness_chars_two_digits (m : List Nat)
    (hm : ∀ l ∈ m, 16 ≤ l ∧ l < 256) :
    decode_brightness_chars (m.map byteDigits).flatten = some m := by
  induction m with
  | nil => rfl
  | cons x xs ih =>
    obtain ⟨hx16, hx⟩ := hm x (List.mem_cons_self _ _)
    have hxs : ∀ l ∈ xs, 16 ≤ l ∧ l < 256 := fun l hl => hm l (List.mem_cons_of_mem _ hl)
    have hq : x / 16 < 16 := by omega
    have hr : x % 16 < 16 := Nat.mod_lt _ (by decide)
    have hb : byteDigits x = [udigit (x / 16), udigit (x % 16)] := by
      simp [byteDigits, Nat.not_lt.mpr hx16]
    simp only [List.map_cons, List.flatten_cons, hb, List.cons_append, List.nil_append,
      decode_brightness_chars, hexVal_udigit _ hq, hexVal_udigit _ hr, ih hxs,
      Nat.div_add_mod]

/-! ## Lemmas on the palette and on the classifier loop -/

theorem ColorMap_keys_nodup : (ColorMap.map Prod.fst).Nodup := by
  decide!

theorem ColorMap_category_range : ∀ e ∈ ColorMap, e.2 < 16 := by
  decide!

theorem ColorMap_alpha_full : ∀ e ∈ ColorMap, e.1.a = 0xff := by
  decide!

/-- A map holds one value per key. -/
theorem ColorMap_functional (e e' : RGBA × Color) (he : e ∈ ColorMap) (he' : e' ∈ ColorMap)
    (hkey : e.1 = e'.1) : e.2 = e'.2 := by
  have h := List.inj_on_of_nodup_map ColorMap_keys_nodup he he' hkey
  rw [h]

theorem ColorfulStep_of_le (d : RGBA → ℚ) (st : ℚ × Color) (e : RGBA × Color)
    (h : d e.1 ≤ st.1) : ColorfulStep d st e = (d e.1, e.2) := by
  simp [ColorfulStep, h]

theorem ColorfulStep_of_lt (d : RGBA → ℚ) (st : ℚ × Color) (e : RGBA × Color)
    (h : st.1 < d e.1) : ColorfulStep d st e = st := by
  simp [ColorfulStep, not_le.mpr h]

theorem ColorfulLoop_cons (d : RGBA → ℚ) (e : RGBA × Color) (l : List (RGBA × Color))
    (st : ℚ × Color) :
    ColorfulLoop d (e :: l) st = ColorfulLoop d l (ColorfulStep d st e) := rfl

/-- What the loop computes: either no entry passes the threshold and the state is
unchanged, or the final state is that of an entry of minimal distance. -/
theorem ColorfulLoop_spec (d : RGBA → ℚ) (l : List (RGBA × Color)) (st : ℚ × Color) :
    (ColorfulLoop d l st = st ∧ ∀ e ∈ l, st.1 < d e.1) ∨
    (∃ e ∈ l, ColorfulLoop d l st = (d e.1, e.2) ∧ d e.1 ≤ st.1 ∧
      ∀ e' ∈ l, d e.1 ≤ d e'.1) := by
  induction l generalizing st with
  | nil => exact Or.inl ⟨rfl, fun e he => absurd he (List.not_mem_nil e)⟩
  | cons x xs ih =>
    rw [ColorfulLoop_cons]
    by_cases hx : d x.1 ≤ st.1
    · rw [ColorfulStep_of_le d st x hx]
      rcases ih (d x.1, x.2) with ⟨hst, hall⟩ | ⟨e, he, hst, hle, hmin⟩
      · refine Or.inr ⟨x, List.mem_cons_self _ _, hst, hx, ?_⟩
        intro e' he'
        rcases List.mem_cons.mp he' with rfl | hmem
        · exact le_refl _
        · exact le_of_lt (hall e' hmem)
      · refine Or.inr ⟨e, List.mem_cons_of_mem _ he, hst, le_trans hle hx, ?_⟩
        intro e' he'
        rcases List.mem_cons.mp he' with rfl | hmem
        · exact hle
        · exact hmin e' hmem
    · have hlt : st.1 < d x.1 := not_le.mp hx
      rw [ColorfulStep_of_lt d st x hlt]
      rcases ih st with ⟨hst, hall⟩ | ⟨e, he, hst, hle, hmin⟩
      · refine Or.inl ⟨hst, ?_⟩
        intro e' he'
        rcases List.mem_cons.mp he' with rfl | hmem
        · exact hlt
        · exact hall e' hmem
      · refine Or.inr ⟨e, List.mem_cons_of_mem _ he, hst, hle, ?_⟩
        intro e' he'
        rcases List.mem_cons.mp he' with rfl | hmem
        · exact le_of_lt (lt_of_le_of_lt hle hlt)
        · exact hmin e' hmem

/-- The same description for `Colorful`, over any iteration order of `ColorMap`. -/
theorem Colorful_spec {C : Type} (MakeColor : RGBA → C) (DistanceLab : C → C → ℚ)
    (order : List (RGBA × Color)) (actualColor : C) (horder : order.Perm ColorMap) :
    (Colorful MakeColor DistanceLab order actualColor = Black ∧
      ∀ e ∈ ColorMap, 1 < DistanceLab (MakeColor e.1) actualColor) ∨
    (∃ e ∈ ColorMap, Colorful MakeColor DistanceLab order actualColor = e.2 ∧
      DistanceLab (MakeColor e.1) actualColor ≤ 1 ∧
      ∀ e' ∈ ColorMap,
        DistanceLab (MakeColor e.1) actualColor ≤ DistanceLab (MakeColor e'.1) actualColor) := by
  rcases ColorfulLoop_spec (fun rgba => DistanceLab (MakeColor rgba) actualColor) order
      (1, Black) with ⟨hst, hall⟩ | ⟨e, he, hst, hle, hmin⟩
  · refine Or.inl ⟨?_, fun e he => hall e (horder.mem_iff.mpr he)⟩
    simp [Colorful, hst]
  · refine Or.inr ⟨e, horder.mem_iff.mp he, ?_, hle, fun e' he' =>
      hmin e' (horder.mem_iff.mpr he')⟩
    simp [Colorful, hst]

theorem sqDiff_eq_zero (x y : Nat) : sqDiff x y = 0 ↔ x = y := by
  unfold sqDiff
  rw [pow_eq_zero_iff (by decide)]
  omega

theorem sampleDistance_nonneg (p q : RGB) : 0 ≤ sampleDistance p q := by
  unfold sampleDistance
  positivity

theorem sampleDistance_eq_zero (p q : RGB) : sampleDistance p q = 0 ↔ p = q := by
  unfold sampleDistance
  rw [div_eq_zero_iff]
  constructor
  · intro h
    rcases h with h | h
    · have h0 : sqDiff p.r q.r + sqDiff p.g q.g + sqDiff p.b q.b = 0 := by exact_mod_cast h
      have hr : p.r = q.r := (sqDiff_eq_zero _ _).mp (by omega)
      have hg : p.g = q.g := (sqDiff_eq_zero _ _).mp (by omega)
      have hb : p.b = q.b := (sqDiff_eq_zero _ _).mp (by omega)
      cases p
      cases q
      simp_all
    · norm_num at h
  · intro h
    subst h
    left
    have h1 := (sqDiff_eq_zero p.r p.r).mpr rfl
    have h2 := (sqDiff_eq_zero p.g p.g).mpr rfl
    have h3 := (sqDiff_eq_zero p.b p.b).mpr rfl
    simp [h1, h2, h3]

theorem sample_zero_iff_same_key (e : RGBA × Color) (he : e ∈ ColorMap)
    (e' : RGBA × Color) (he' : e' ∈ ColorMap) :
    sampleDistance (sampleMakeColor e.1) (sampleMakeColor e'.1) = 0 ↔ e.1 = e'.1 := by
  rw [sampleDistance_eq_zero]
  constructor
  · intro h
    have ha := ColorMap_alpha_full e he
    have ha' := ColorMap_alpha_full e' he'
    obtain ⟨⟨r, g, b, a⟩, c⟩ := e
    obtain ⟨⟨r', g', b', a'⟩, c'⟩ := e'
    simp only [sampleMakeColor, RGB.mk.injEq] at h
    simp only at ha ha'
    simp [h.1, h.2.1, h.2.2, ha, ha']
  · intro h
    rw [h]

/-! ## Compact encodings -/

/-- C1: for every sequence `s` of colours with ordinals in `0..15`, `Colors.Hex s`
has exactly `len(s)` characters and its `i`-th character is the upper-case
hexadecimal digit of the ordinal of `s[i]`, i.e. the character at that index of
`"0123456789ABCDEF"`. -/
theorem Colors_Hex_one_digit_per_color (s : Colors) (hs : ∀ c ∈ s, c < 16) :
    (Colors.Hex s).length = s.length ∧
    ∀ (i : Nat) (hi : i < s.length),
      (Colors.Hex s).data[i]? = "0123456789ABCDEF".data[s.get ⟨i, hi⟩]? := by
  have hdata := Colors_Hex_data_valid s hs
  refine ⟨?_, ?_⟩
  · show (Colors.Hex s).data.length = s.length
    rw [hdata, List.length_map]
  · intro i hi
    rw [hdata, udigit_eq_table _ (hs _ (List.get_mem s i hi))]
    simp [List.getElem?_map, List.getElem?_eq_getElem hi]

theorem Colors_Hex_one_digit_per_color_witness :
    (∀ c ∈ [Red, Black, Lime], c < 16) ∧
    ((Colors.Hex [Red, Black, Lime]).length = [Red, Black, Lime].length ∧
      ∀ (i : Nat) (hi : i < [Red, Black, Lime].length),
        (Colors.Hex [Red, Black, Lime]).data[i]?
          = "0123456789ABCDEF".data[[Red, Black, Lime].get ⟨i, hi⟩]?) :=
  ⟨by decide, Colors_Hex_one_digit_per_color [Red, Black, Lime] (by decide)⟩

/-- C2 (as stated, refuted): the luminance value `5` is written as the single
character `5`, not as `05`, so the string for a one-element light map has length
`1` instead of `2`. -/
theorem LightMap_Hex_not_zero_padded :
    (∀ l ∈ [5], l < 256) ∧ LightMap.Hex [5] = "5" ∧
    (LightMap.Hex [5]).length ≠ 2 * [5].length := by
  decide

/-- C2 (amended): for every sequence `m` of luminance values in `0..255`,
`LightMap.Hex m` concatenates, in order, the upper-case hexadecimal numeral of
each value without zero padding: one digit for values below 16, two digits (high
nibble first) from 16 on. Its length is `len(m)` plus the number of values that
are at least 16; it equals `2 * len(m)` exactly when every value is at least 16. -/
theorem LightMap_Hex_unpadded (m : LightMap) (hm : ∀ l ∈ m, l < 256) :
    (LightMap.Hex m).data = (m.map byteDigits).flatten ∧
    (LightMap.Hex m).length = m.length + m.countP (fun l => 16 ≤ l) ∧
    ((LightMap.Hex m).length = 2 * m.length ↔ ∀ l ∈ m, 16 ≤ l) := by
  have hdata := LightMap_Hex_data_byteDigits m hm
  have hlen : (LightMap.Hex m).length = m.length + m.countP (fun l => 16 ≤ l) := by
    show (LightMap.Hex m).data.length = _
    rw [hdata]
    clear hdata hm
    induction m with
    | nil => rfl
    | cons x xs ih =>
      simp only [List.map_cons, List.flatten_cons, List.length_append, ih, List.length_cons,
        List.countP_cons]
      by_cases hx : x < 16
      · have hx' : ¬ 16 ≤ x := Nat.not_le.mpr hx
        simp [byteDigits, hx, hx']
        omega
      · have hx' : 16 ≤ x := Nat.le_of_not_lt hx
        simp [byteDigits, hx, hx']
        omega
  refine ⟨hdata, hlen, ?_⟩
  rw [hlen]
  constructor
  · intro h
    have hc : m.countP (fun l => decide (16 ≤ l)) = m.length := by omega
    intro l hl
    have := (List.countP_eq_length.mp hc) l hl
    simpa using this
  · intro h
    have hc : m.countP (fun l => decide (16 ≤ l)) = m.length :=
      List.countP_eq_length.mpr (fun l hl => by simpa using h l hl)
    omega

theorem LightMap_Hex_unpadded_witness :
    (∀ l ∈ [0, 9, 16, 171, 255], l < 256) ∧
    ((LightMap.Hex [0, 9, 16, 171, 255]).data = ([0, 9, 16, 171, 255].map byteDigits).flatten ∧
      (LightMap.Hex [0, 9, 16, 171, 255]).length
        = [0, 9, 16, 171, 255].length + [0, 9, 16, 171, 255].countP (fun l => 16 ≤ l) ∧
      ((LightMap.Hex [0, 9, 16, 171, 255]).length = 2 * [0, 9, 16, 171, 255].length
        ↔ ∀ l ∈ [0, 9, 16, 171, 255], 16 ≤ l)) :=
  ⟨by decide, LightMap_Hex_unpadded [0, 9, 16, 171, 255] (by decide)⟩

/-- C3: category encoding is lossless. For valid sequences `s` and `t` (ordinals
in `0..15`), decoding `Colors.Hex s` one hexadecimal digit per category gives back
`s`, and `Colors.Hex s = Colors.Hex t` implies `s = t`. -/
theorem Colors_Hex_lossless (s t : Colors) (hs : ∀ c ∈ s, c < 16) (ht : ∀ c ∈ t, c < 16) :
    decode_categories (Colors.Hex s) = some s ∧ (Colors.Hex s = Colors.Hex t → s = t) := by
  have hdec : ∀ u : Colors, (∀ c ∈ u, c < 16) → decode_categories (Colors.Hex u) = some u := by
    intro u hu
    unfold decode_categories
    rw [Colors_Hex_data_valid u hu]
    exact decode_categories_chars_map_udigit u hu
  refine ⟨hdec s hs, ?_⟩
  intro h
  have h1 := hdec s hs
  rw [h, hdec t ht] at h1
  exact (Option.some.inj h1).symm

theorem Colors_Hex_lossless_witness :
    (∀ c ∈ [Pink, Gold, Gold, Black], c < 16) ∧ (∀ c ∈ [Pink, Gold, Teal], c < 16) ∧
    (decode_categories (Colors.Hex [Pink, Gold, Gold, Black]) = some [Pink, Gold, Gold, Black] ∧
      (Colors.Hex [Pink, Gold, Gold, Black] = Colors.Hex [Pink, Gold, Teal] →
        [Pink, Gold, Gold, Black] = [Pink, Gold, Teal])) :=
  ⟨by decide, by decide,
    Colors_Hex_lossless [Pink, Gold, Gold, Black] [Pink, Gold, Teal] (by decide) (by decide)⟩

/-- C4 (as stated, refuted): the distinct brightness sequences `[1, 16]` and
`[17, 0]` are both encoded as `"110"`, and decoding that string two digits per
sample does not give back `[1, 16]`. -/
theorem LightMap_Hex_not_injective :
    (∀ l ∈ [1, 16], l < 256) ∧ (∀ l ∈ [17, 0], l < 256) ∧
    LightMap.Hex [1, 16] = "110" ∧ LightMap.Hex [17, 0] = "110" ∧
    ([1, 16] : LightMap) ≠ [17, 0] ∧
    decode_brightness (LightMap.Hex [1, 16]) ≠ some [1, 16] := by
  decide

/-- C4 (amended): brightness encoding is lossless on sequences of uniform digit
width. If the values of `b` and `c` are all in `0..15` (one digit each) or all in
`16..255` (two digits each), then `LightMap.Hex b = LightMap.Hex c` implies
`b = c`; and when the values of `b` are all in `16..255`, decoding
`LightMap.Hex b` two digits per sample gives back `b`. -/
theorem LightMap_Hex_lossless_uniform_width (b c : LightMap)
    (h : (∀ l ∈ b ++ c, l < 16) ∨ (∀ l ∈ b ++ c, 16 ≤ l ∧ l < 256)) :
    (LightMap.Hex b = LightMap.Hex c → b = c) ∧
    ((∀ l ∈ b, 16 ≤ l ∧ l < 256) → decode_brightness (LightMap.Hex b) = some b) := by
  have hdec2 : ∀ u : LightMap, (∀ l ∈ u, 16 ≤ l ∧ l < 256) →
      decode_brightness (LightMap.Hex u) = some u := by
    intro u hu
    unfold decode_brightness
    rw [LightMap_Hex_data_byteDigits u (fun l hl => (hu l hl).2)]
    exact decode_brightness_chars_two_digits u hu
  have hdec1 : ∀ u : LightMap, (∀ l ∈ u, l < 16) →
      decode_categories_chars (LightMap.Hex u).data = some u := by
    intro u hu
    rw [LightMap_Hex_data_small u hu]
    exact decode_categories_chars_map_udigit u hu
  refine ⟨?_, hdec2 b⟩
  intro heq
  rcases h with h | h
  · have hb := hdec1 b (fun l hl => h l (List.mem_append_left _ hl))
    have hc := hdec1 c (fun l hl => h l (List.mem_append_right _ hl))
    rw [heq, hc] at hb
    exact (Option.some.inj hb).symm
  · have hb := hdec2 b (fun l hl => h l (List.mem_append_left _ hl))
    have hc := hdec2 c (fun l hl => h l (List.mem_append_right _ hl))
    rw [heq, hc] at hb
    exact (Option.some.inj hb).symm

theorem LightMap_Hex_lossless_uniform_width_witness :
    ((∀ l ∈ [16, 255] ++ [171, 32], l < 16) ∨
      (∀ l ∈ [16, 255] ++ [171, 32], 16 ≤ l ∧ l < 256)) ∧
    ((LightMap.Hex [16, 255] = LightMap.Hex [171, 32] → [16, 255] = [171, 32]) ∧
      ((∀ l ∈ [16, 255], 16 ≤ l ∧ l < 256) →
        decode_brightness (LightMap.Hex [16, 255]) = some [16, 255])) :=
  ⟨Or.inr (by decide), LightMap_Hex_lossless_uniform_width [16, 255] [171, 32] (Or.inr (by decide))⟩

/-- C5: the persisted digit of each category is its ordinal in the order Black,
Brown, Grey, White, Purple, Gold, Blue, Cyan, Teal, Green, Lime, Yellow, Magenta,
Orange, Red, Pink: the ordinals are `0..15`, `Color.Hex` maps them to `"0"`, ...,
`"9"`, `"A"`, ..., `"F"`, and these sixteen strings are pairwise distinct. -/
theorem Color_Hex_is_ordinal_digit :
    [Black, Brown, Grey, White, Purple, Gold, Blue, Cyan, Teal, Green, Lime, Yellow,
      Magenta, Orange, Red, Pink] = List.range 16 ∧
    [Black, Brown, Grey, White, Purple, Gold, Blue, Cyan, Teal, Green, Lime, Yellow,
      Magenta, Orange, Red, Pink].map Color.Hex
      = ["0", "1", "2", "3", "4", "5", "6", "7", "8", "9", "A", "B", "C", "D", "E", "F"] ∧
    ([Black, Brown, Grey, White, Purple, Gold, Blue, Cyan, Teal, Green, Lime, Yellow,
      Magenta, Orange, Red, Pink].map Color.Hex).Nodup := by
  decide

/-- C6 (as stated, refuted): the chroma value `5` is written as the single
character `5`, which is one hexadecimal digit, not two. -/
theorem Chroma_Hex_single_digit :
    (5 : Chroma) < 256 ∧ Chroma.Hex 5 = "5" ∧ (Chroma.Hex 5).length ≠ 2 := by
  decide

/-- C6 (amended): for every chroma value `c` in `0..255`, `Chroma.Hex c` is the
upper-case hexadecimal numeral of `c` without zero padding: one hexadecimal digit
when `c` is below 16 and exactly two (high nibble first) when `c` is in
`16..255`. -/
theorem Chroma_Hex_one_or_two_digits (c : Chroma) (hc : c < 256) :
    (Chroma.Hex c).data = byteDigits c ∧
    (Chroma.Hex c).length = (if c < 16 then 1 else 2) ∧
    ∀ ch ∈ (Chroma.Hex c).data, ch ∈ "0123456789ABCDEF".data := by
  have hdata : (Chroma.Hex c).data = byteDigits c := sprintfX_data_byteDigits c hc
  have hdig : ∀ d < 16, udigit d ∈ "0123456789ABCDEF".data := by decide
  refine ⟨hdata, ?_, ?_⟩
  · show (Chroma.Hex c).data.length = _
    rw [hdata]
    unfold byteDigits
    split <;> rfl
  · rw [hdata]
    unfold byteDigits
    intro ch hch
    split at hch
    · next h16 =>
      rw [List.mem_singleton] at hch
      rw [hch]
      exact hdig c h16
    · next h16 =>
      have hq := (byte_nibbles c hc).1
      have hr := (byte_nibbles c hc).2
      rcases List.mem_cons.mp hch with h | h
      · rw [h]
        exact hdig _ hq
      · rw [List.mem_singleton] at h
        rw [h]
        exact hdig _ hr

theorem Chroma_Hex_one_or_two_digits_witness :
    (200 : Chroma) < 256 ∧
    ((Chroma.Hex 200).data = byteDigits 200 ∧
      (Chroma.Hex 200).length = (if 200 < 16 then 1 else 2) ∧
      ∀ ch ∈ (Chroma.Hex 200).data, ch ∈ "0123456789ABCDEF".data) :=
  ⟨by decide, Chroma_Hex_one_or_two_digits 200 (by decide)⟩

/-! ## Nearest-category classifier -/

/-- C7: exact reference-table hits classify to their own category. For every
iteration order of the palette and every distance that is non-negative and zero
exactly between identical reference colours, `Colorful` applied to the colour of
a reference point `(rgb, cat)` of `ColorMap` returns `cat`; in particular
`(0,0,0)` gives `Black` and `(255,255,255)` gives `White`. -/
theorem Colorful_exact_hit {C : Type} (MakeColor : RGBA → C) (DistanceLab : C → C → ℚ)
    (order : List (RGBA × Color))
    (hzero : ∀ e ∈ ColorMap, ∀ e' ∈ ColorMap,
      (DistanceLab (MakeColor e.1) (MakeColor e'.1) = 0 ↔ e.1 = e'.1))
    (hnonneg : ∀ x y, 0 ≤ DistanceLab x y)
    (horder : order.Perm ColorMap) :
    (∀ rgb cat, (rgb, cat) ∈ ColorMap →
      Colorful MakeColor DistanceLab order (MakeColor rgb) = cat) ∧
    Colorful MakeColor DistanceLab order (MakeColor ⟨0x00, 0x00, 0x00, 0xff⟩) = Black ∧
    Colorful MakeColor DistanceLab order (MakeColor ⟨0xFF, 0xFF, 0xFF, 0xff⟩) = White := by
  have hgen : ∀ rgb cat, (rgb, cat) ∈ ColorMap →
      Colorful MakeColor DistanceLab order (MakeColor rgb) = cat := by
    intro rgb cat hmem
    have hself : DistanceLab (MakeColor rgb) (MakeColor rgb) = 0 :=
      (hzero (rgb, cat) hmem (rgb, cat) hmem).mpr rfl
    rcases Colorful_spec MakeColor DistanceLab order (MakeColor rgb) horder with
      ⟨_, hall⟩ | ⟨e, he, hres, _, hmin⟩
    · have h1 := hall (rgb, cat) hmem
      rw [hself] at h1
      exact absurd h1 (by norm_num)
    · have h1 := hmin (rgb, cat) hmem
      rw [hself] at h1
      have h0 : DistanceLab (MakeColor e.1) (MakeColor rgb) = 0 :=
        le_antisymm h1 (hnonneg _ _)
      have hkey : e.1 = rgb := (hzero e he (rgb, cat) hmem).mp h0
      rw [hres]
      exact ColorMap_functional e (rgb, cat) he hmem hkey
  exact ⟨hgen, hgen _ _ (by decide!), hgen _ _ (by decide!)⟩

theorem Colorful_exact_hit_witness :
    (∀ e ∈ ColorMap, ∀ e' ∈ ColorMap,
      (sampleDistance (sampleMakeColor e.1) (sampleMakeColor e'.1) = 0 ↔ e.1 = e'.1)) ∧
    (∀ x y, 0 ≤ sampleDistance x y) ∧
    ColorMap.reverse.Perm ColorMap ∧
    ((∀ rgb cat, (rgb, cat) ∈ ColorMap →
        Colorful sampleMakeColor sampleDistance ColorMap.reverse (sampleMakeColor rgb) = cat) ∧
      Colorful sampleMakeColor sampleDistance ColorMap.reverse
        (sampleMakeColor ⟨0x00, 0x00, 0x00, 0xff⟩) = Black ∧
      Colorful sampleMakeColor sampleDistance ColorMap.reverse
        (sampleMakeColor ⟨0xFF, 0xFF, 0xFF, 0xff⟩) = White) :=
  ⟨sample_zero_iff_same_key, sampleDistance_nonneg, List.reverse_perm ColorMap,
    Colorful_exact_hit sampleMakeColor sampleDistance ColorMap.reverse
      sample_zero_iff_same_key sampleDistance_nonneg (List.reverse_perm ColorMap)⟩

/-- C8 (as stated, refuted): in the sample colour space the input
`(1000, 1000, 1000)` is farther than `1` from every reference point. Even the
first reference point compared is not taken as candidate, `Colorful` returns
`Black`, and no reference point of the returned category is at minimal distance
(the nearest one is white). -/
theorem Colorful_threshold_is_one :
    ColorfulStep (fun rgba => sampleDistance (sampleMakeColor rgba) ⟨1000, 1000, 1000⟩)
      (1, Black) (⟨0x00, 0x00, 0x00, 0xff⟩, Black) = (1, Black) ∧
    Colorful sampleMakeColor sampleDistance ColorMap ⟨1000, 1000, 1000⟩ = Black ∧
    ¬ ∃ e ∈ ColorMap,
        Colorful sampleMakeColor sampleDistance ColorMap ⟨1000, 1000, 1000⟩ = e.2 ∧
        ∀ e' ∈ ColorMap,
          sampleDistance (sampleMakeColor e.1) ⟨1000, 1000, 1000⟩
            ≤ sampleDistance (sampleMakeColor e'.1) ⟨1000, 1000, 1000⟩ := by
  decide!

/-- C8 (amended): the initial threshold is `1.0`. Whenever some reference point
lies within distance `1.0` of the input, `Colorful` returns, for every iteration
order, the category of a reference point whose distance to the input is minimal
over the whole palette; and the first reference point compared becomes the
candidate exactly when its distance is at most `1.0`. -/
theorem Colorful_nearest_within_threshold {C : Type} (MakeColor : RGBA → C)
    (DistanceLab : C → C → ℚ) (order : List (RGBA × Color)) (actualColor : C)
    (horder : order.Perm ColorMap)
    (hnear : ∃ e ∈ ColorMap, DistanceLab (MakeColor e.1) actualColor ≤ 1) :
    (∃ e ∈ ColorMap, Colorful MakeColor DistanceLab order actualColor = e.2 ∧
      ∀ e' ∈ ColorMap,
        DistanceLab (MakeColor e.1) actualColor ≤ DistanceLab (MakeColor e'.1) actualColor) ∧
    (∀ first : RGBA × Color,
      ColorfulStep (fun rgba => DistanceLab (MakeColor rgba) actualColor) (1, Black) first
          = (DistanceLab (MakeColor first.1) actualColor, first.2)
        ↔ DistanceLab (MakeColor first.1) actualColor ≤ 1) := by
  refine ⟨?_, ?_⟩
  · rcases Colorful_spec MakeColor DistanceLab order actualColor horder with
      ⟨_, hall⟩ | ⟨e, he, hres, _, hmin⟩
    · obtain ⟨e, he, hle⟩ := hnear
      exact absurd (hall e he) (not_lt.mpr hle)
    · exact ⟨e, he, hres, hmin⟩
  · intro first
    constructor
    · intro h
      by_contra hgt
      rw [ColorfulStep_of_lt _ _ _ (not_le.mp hgt)] at h
      have h1 : (1 : ℚ) = DistanceLab (MakeColor first.1) actualColor := congrArg Prod.fst h
      exact hgt (le_of_eq h1.symm)
    · intro h
      exact ColorfulStep_of_le _ _ _ h

theorem Colorful_nearest_within_threshold_witness :
    ColorMap.Perm ColorMap ∧
    (∃ e ∈ ColorMap, sampleDistance (sampleMakeColor e.1) ⟨10, 20, 30⟩ ≤ 1) ∧
    ((∃ e ∈ ColorMap, Colorful sampleMakeColor sampleDistance ColorMap ⟨10, 20, 30⟩ = e.2 ∧
        ∀ e' ∈ ColorMap,
          sampleDistance (sampleMakeColor e.1) ⟨10, 20, 30⟩
            ≤ sampleDistance (sampleMakeColor e'.1) ⟨10, 20, 30⟩) ∧
      (∀ first : RGBA × Color,
        ColorfulStep (fun rgba => sampleDistance (sampleMakeColor rgba) ⟨10, 20, 30⟩)
            (1, Black) first
            = (sampleDistance (sampleMakeColor first.1) ⟨10, 20, 30⟩, first.2)
          ↔ sampleDistance (sampleMakeColor first.1) ⟨10, 20, 30⟩ ≤ 1)) :=
  ⟨List.Perm.refl ColorMap, by decide!,
    Colorful_nearest_within_threshold sampleMakeColor sampleDistance ColorMap ⟨10, 20, 30⟩
      (List.Perm.refl ColorMap) (by decide!)⟩

/-- In the sample colour space the input `(0xb3, 0xb5, 0x9b)` is equally near to
the brown reference point `(0xb4, 0xb5, 0x9c)` and to the green one
`(0xb2, 0xb4, 0x9b)`. Visiting the palette in source order gives `Green`,
visiting it in the reverse order gives `Brown`: an exact tie between nearest
reference points of two categories makes the result depend on the order. -/
theorem Colorful_depends_on_order :
    ColorMap.reverse.Perm ColorMap ∧
    Colorful sampleMakeColor sampleDistance ColorMap ⟨0xb3, 0xb5, 0x9b⟩ = Green ∧
    Colorful sampleMakeColor sampleDistance ColorMap.reverse ⟨0xb3, 0xb5, 0x9b⟩ = Brown ∧
    Green ≠ Brown :=
  ⟨List.reverse_perm ColorMap, by decide!, by decide!, by decide⟩

/-- Classification does not depend on the iteration order when the nearest
reference points agree on the category. If every reference point at minimal
distance from the input has the same category as any reference point equally far
away, then `Colorful` returns the same category for any two iteration orders of
the palette. -/
theorem Colorful_deterministic_without_ties {C : Type} (MakeColor : RGBA → C)
    (DistanceLab : C → C → ℚ) (order₁ order₂ : List (RGBA × Color)) (actualColor : C)
    (h₁ : order₁.Perm ColorMap) (h₂ : order₂.Perm ColorMap)
    (hties : ∀ e ∈ ColorMap,
      (∀ x ∈ ColorMap,
        DistanceLab (MakeColor e.1) actualColor ≤ DistanceLab (MakeColor x.1) actualColor) →
      ∀ e' ∈ ColorMap,
        DistanceLab (MakeColor e'.1) actualColor = DistanceLab (MakeColor e.1) actualColor →
        e'.2 = e.2) :
    Colorful MakeColor DistanceLab order₁ actualColor
      = Colorful MakeColor DistanceLab order₂ actualColor := by
  rcases Colorful_spec MakeColor DistanceLab order₁ actualColor h₁ with
    ⟨hres₁, hall₁⟩ | ⟨e₁, he₁, hres₁, hle₁, hmin₁⟩
  · rcases Colorful_spec MakeColor DistanceLab order₂ actualColor h₂ with
      ⟨hres₂, _⟩ | ⟨e₂, he₂, _, hle₂, _⟩
    · rw [hres₁, hres₂]
    · exact absurd (hall₁ e₂ he₂) (not_lt.mpr hle₂)
  · rcases Colorful_spec MakeColor DistanceLab order₂ actualColor h₂ with
      ⟨_, hall₂⟩ | ⟨e₂, he₂, hres₂, _, hmin₂⟩
    · exact absurd (hall₂ e₁ he₁) (not_lt.mpr hle₁)
    · have heq : DistanceLab (MakeColor e₂.1) actualColor
          = DistanceLab (MakeColor e₁.1) actualColor :=
        le_antisymm (hmin₂ e₁ he₁) (hmin₁ e₂ he₂)
      rw [hres₁, hres₂]
      exact (hties e₁ he₁ hmin₁ e₂ he₂ heq).symm

theorem Colorful_deterministic_without_ties_witness :
    ColorMap.Perm ColorMap ∧ ColorMap.reverse.Perm ColorMap ∧
    (∀ e ∈ ColorMap,
      (∀ x ∈ ColorMap,
        sampleDistance (sampleMakeColor e.1) ⟨10, 20, 30⟩
          ≤ sampleDistance (sampleMakeColor x.1) ⟨10, 20, 30⟩) →
      ∀ e' ∈ ColorMap,
        sampleDistance (sampleMakeColor e'.1) ⟨10, 20, 30⟩
          = sampleDistance (sampleMakeColor e.1) ⟨10, 20, 30⟩ →
        e'.2 = e.2) ∧
    Colorful sampleMakeColor sampleDistance ColorMap ⟨10, 20, 30⟩
      = Colorful sampleMakeColor sampleDistance ColorMap.reverse ⟨10, 20, 30⟩ :=
  ⟨List.Perm.refl ColorMap, List.reverse_perm ColorMap, by decide!,
    Colorful_deterministic_without_ties sampleMakeColor sampleDistance ColorMap
      ColorMap.reverse ⟨10, 20, 30⟩ (List.Perm.refl ColorMap) (List.reverse_perm ColorMap)
      (by decide!)⟩

/-- C10: `Colorful` is total and always yields a category. For every input
colour, every distance and every iteration order of the palette, the result is
one of the sixteen categories, i.e. its ordinal is in `0..15`. -/
theorem Colorful_returns_category {C : Type} (MakeColor : RGBA → C)
    (DistanceLab : C → C → ℚ) (order : List (RGBA × Color)) (actualColor : C)
    (horder : order.Perm ColorMap) :
    Colorful MakeColor DistanceLab order actualColor < 16 ∧
    Colorful MakeColor DistanceLab order actualColor ∈
      [Black, Brown, Grey, White, Purple, Gold, Blue, Cyan, Teal, Green, Lime, Yellow,
        Magenta, Orange, Red, Pink] := by
  have hlt : Colorful MakeColor DistanceLab order actualColor < 16 := by
    rcases Colorful_spec MakeColor DistanceLab order actualColor horder with
      ⟨hres, _⟩ | ⟨e, he, hres, _, _⟩
    · rw [hres]
      decide
    · rw [hres]
      exact ColorMap_category_range e he
  have hall : ∀ n < 16, n ∈ [Black, Brown, Grey, White, Purple, Gold, Blue, Cyan, Teal,
      Green, Lime, Yellow, Magenta, Orange, Red, Pink] := by decide
  exact ⟨hlt, hall _ hlt⟩

theorem Colorful_returns_category_witness :
    ColorMap.reverse.Perm ColorMap ∧
    (Colorful sampleMakeColor sampleDistance ColorMap.reverse ⟨1000, 1000, 1000⟩ < 16 ∧
      Colorful sampleMakeColor sampleDistance ColorMap.reverse ⟨1000, 1000, 1000⟩ ∈
        [Black, Brown, Grey, White, Purple, Gold, Blue, Cyan, Teal, Green, Lime, Yellow,
          Magenta, Orange, Red, Pink]) :=
  ⟨List.reverse_perm ColorMap,
    Colorful_returns_category sampleMakeColor sampleDistance ColorMap.reverse
      ⟨1000, 1000, 1000⟩ (List.reverse_perm ColorMap)⟩

/-! ## Lemmas on the registry, the listing and ties in the classifier loop -/

theorem foldl_append_singleton {α β : Type} (f : α → β) (l : List α) (init : List β) :
    l.foldl (fun result x => result ++ [f x]) init = init ++ l.map f := by
  induction l generalizing init with
  | nil => simp
  | cons x xs ih => simp [List.foldl_cons, ih, List.append_assoc]

theorem Colors_List_eq_map (s : Colors) :
    Colors.List s = s.map (fun c =>
      [("name", Color.Name c), ("label", Title (Color.Name c)),
        ("example", mapIndex "" ColorExamples c)]) := by
  unfold Colors.List
  rw [foldl_append_singleton]
  rfl

/-- Shape of the three presentation strings of each category, in a form that is
checked by evaluation. -/
theorem registry_entry_shape : ∀ c < 16,
    (Color.Name c).data ≠ [] ∧
    (∀ ch ∈ (Color.Name c).data, 'a' ≤ ch ∧ ch ≤ 'z') ∧
    (Title (Color.Name c)).data
      = ((Color.Name c).data.headD ' ').toUpper :: (Color.Name c).data.tail ∧
    (mapIndex "" ColorExamples c).data.head? = some '#' ∧
    (mapIndex "" ColorExamples c).data.tail.length = 6 ∧
    (∀ ch ∈ (mapIndex "" ColorExamples c).data.tail, (hexVal ch).isSome = true) := by
  decide

theorem ColorfulLoop_append (d : RGBA → ℚ) (l₁ l₂ : List (RGBA × Color)) (st : ℚ × Color) :
    ColorfulLoop d (l₁ ++ l₂) st = ColorfulLoop d l₂ (ColorfulLoop d l₁ st) := by
  simp [ColorfulLoop, List.foldl_append]

/-- The running distance never drops below a common lower bound of the initial
distance and of the distances of the visited entries. -/
theorem ColorfulLoop_lower_bound (d : RGBA → ℚ) (m : ℚ) (l : List (RGBA × Color))
    (st : ℚ × Color) (hst : m ≤ st.1) (hl : ∀ x ∈ l, m ≤ d x.1) :
    m ≤ (ColorfulLoop d l st).1 := by
  rcases ColorfulLoop_spec d l st with ⟨h, _⟩ | ⟨e, he, h, _, _⟩
  · rw [h]
    exact hst
  · rw [h]
    exact hl e he

/-- Entries that are all strictly farther than the running distance leave the
state unchanged. -/
theorem ColorfulLoop_unchanged (d : RGBA → ℚ) (l : List (RGBA × Color)) (st : ℚ × Color)
    (hl : ∀ x ∈ l, st.1 < d x.1) : ColorfulLoop d l st = st := by
  rcases ColorfulLoop_spec d l st with ⟨h, _⟩ | ⟨e, he, _, hle, _⟩
  · exact h
  · exact absurd (hl e he) (not_lt.mpr hle)

/-- The last entry of minimal distance within the threshold determines the final
state of the loop. -/
theorem ColorfulLoop_last_minimum (d : RGBA → ℚ) (pre post : List (RGBA × Color))
    (e : RGBA × Color) (hthr : d e.1 ≤ 1) (hpre : ∀ x ∈ pre, d e.1 ≤ d x.1)
    (hpost : ∀ x ∈ post, d e.1 < d x.1) :
    ColorfulLoop d (pre ++ e :: post) (1, Black) = (d e.1, e.2) := by
  rw [ColorfulLoop_append, ColorfulLoop_cons,
    ColorfulStep_of_le d _ e (ColorfulLoop_lower_bound d (d e.1) pre (1, Black) hthr hpre)]
  exact ColorfulLoop_unchanged d post (d e.1, e.2) hpost

/-- Classifying the colour of a reference point gives the category of that point,
for a non-negative distance that vanishes exactly between identical reference
colours. -/
theorem Colorful_of_reference_point {C : Type} (MakeColor : RGBA → C)
    (DistanceLab : C → C → ℚ) (order : List (RGBA × Color))
    (hzero : ∀ e ∈ ColorMap, ∀ e' ∈ ColorMap,
      (DistanceLab (MakeColor e.1) (MakeColor e'.1) = 0 ↔ e.1 = e'.1))
    (hnonneg : ∀ x y, 0 ≤ DistanceLab x y)
    (horder : order.Perm ColorMap) (p : RGBA × Color) (hp : p ∈ ColorMap) :
    Colorful MakeColor DistanceLab order (MakeColor p.1) = p.2 := by
  have hself : DistanceLab (MakeColor p.1) (MakeColor p.1) = 0 := (hzero p hp p hp).mpr rfl
  rcases Colorful_spec MakeColor DistanceLab order (MakeColor p.1) horder with
    ⟨_, hall⟩ | ⟨e, he, hres, _, hmin⟩
  · have h1 := hall p hp
    rw [hself] at h1
    exact absurd h1 (by norm_num)
  · have h1 := hmin p hp
    rw [hself] at h1
    have h0 : DistanceLab (MakeColor e.1) (MakeColor p.1) = 0 := le_antisymm h1 (hnonneg _ _)
    rw [hres]
    exact ColorMap_functional e p he hp ((hzero e he p hp).mp h0)

/-! ## Category registry -/

/-- C11: the category registry is complete and closed. The keys of `Names`, of
`Weights` and of `ColorExamples` are each a rearrangement of the ordinals
`0..15`, so every table holds exactly one entry for each of the sixteen
categories and none for any other key; every salience weight is in `1..5`. -/
theorem registry_complete_and_closed :
    (Names.map Prod.fst).Perm (List.range 16) ∧
    (Weights.map Prod.fst).Perm (List.range 16) ∧
    (ColorExamples.map Prod.fst).Perm (List.range 16) ∧
    (∀ c, (Names.map Prod.fst).count c = if c < 16 then 1 else 0) ∧
    (∀ c, (Weights.map Prod.fst).count c = if c < 16 then 1 else 0) ∧
    (∀ c, (ColorExamples.map Prod.fst).count c = if c < 16 then 1 else 0) ∧
    (∀ e ∈ Weights, 1 ≤ e.2 ∧ e.2 ≤ 5) := by
  have hN : (Names.map Prod.fst).Perm (List.range 16) := by decide
  have hW : (Weights.map Prod.fst).Perm (List.range 16) := by decide
  have hE : (ColorExamples.map Prod.fst).Perm (List.range 16) := by decide
  have hcount : ∀ c, (List.range 16).count c = if c < 16 then 1 else 0 := by
    intro c
    by_cases hc : c < 16
    · rw [if_pos hc]
      exact List.count_eq_one_of_mem (List.nodup_range 16) (List.mem_range.mpr hc)
    · rw [if_neg hc]
      exact List.count_eq_zero_of_not_mem (fun h => hc (List.mem_range.mp h))
  refine ⟨hN, hW, hE, ?_, ?_, ?_, by decide⟩
  · intro c
    rw [hN.count_eq, hcount]
  · intro c
    rw [hW.count_eq, hcount]
  · intro c
    rw [hE.count_eq, hcount]

/-- C12: salience outweighs raw frequency in the weight table. The weights of
Lime, Yellow and Magenta are 5, no category weighs more, Grey weighs 1, which is
strictly below the weight of every other category, and three Grey samples tally
strictly less than one Magenta sample. -/
theorem Weights_salience :
    mapIndex 0 Weights Lime = 5 ∧ mapIndex 0 Weights Yellow = 5 ∧
    mapIndex 0 Weights Magenta = 5 ∧
    (∀ c < 16, mapIndex 0 Weights c ≤ 5) ∧
    mapIndex 0 Weights Grey = 1 ∧
    (∀ c < 16, c ≠ Grey → mapIndex 0 Weights Grey < mapIndex 0 Weights c) ∧
    3 * mapIndex 0 Weights Grey < mapIndex 0 Weights Magenta := by
  decide

/-- C13: for every sequence `s` of valid colours, `Colors.List s` has `len(s)`
entries in the same order; the `i`-th entry has exactly the keys `name`, `label`
and `example`, where `name` is `Names[s[i]]`, a non-empty string of lower-case
letters, `label` is `name` with its first letter upper-cased, and `example` is
`ColorExamples[s[i]]`, a `#` followed by exactly six hexadecimal digits. -/
theorem Colors_List_entries (s : Colors) (hs : ∀ c ∈ s, c < 16) :
    (Colors.List s).length = s.length ∧
    ∀ (i : Nat) (hi : i < s.length),
      ∃ name label swatch : String,
        (Colors.List s)[i]? = some [("name", name), ("label", label), ("example", swatch)] ∧
        name = mapIndex "" Names (s.get ⟨i, hi⟩) ∧
        name ≠ "" ∧
        (∀ ch ∈ name.data, 'a' ≤ ch ∧ ch ≤ 'z') ∧
        (∃ first rest, name.data = first :: rest ∧ label.data = first.toUpper :: rest) ∧
        swatch = mapIndex "" ColorExamples (s.get ⟨i, hi⟩) ∧
        (∃ digits, swatch.data = '#' :: digits ∧ digits.length = 6 ∧
          ∀ ch ∈ digits, (hexVal ch).isSome = true) := by
  rw [Colors_List_eq_map]
  refine ⟨List.length_map _ _, ?_⟩
  intro i hi
  have hc : s.get ⟨i, hi⟩ < 16 := hs _ (List.get_mem s i hi)
  obtain ⟨hne, hlow, htitle, hhash, hlen, hhex⟩ := registry_entry_shape _ hc
  refine ⟨Color.Name (s.get ⟨i, hi⟩), Title (Color.Name (s.get ⟨i, hi⟩)),
    mapIndex "" ColorExamples (s.get ⟨i, hi⟩), ?_, rfl, ?_, hlow, ?_, rfl, ?_⟩
  · simp [List.getElem?_map, List.getElem?_eq_getElem hi]
  · intro h
    apply hne
    rw [h]
  · cases hdata : (Color.Name (s.get ⟨i, hi⟩)).data with
    | nil => exact absurd hdata hne
    | cons first rest =>
      refine ⟨first, rest, rfl, ?_⟩
      rw [htitle, hdata]
      rfl
  · cases hdata : (mapIndex "" ColorExamples (s.get ⟨i, hi⟩)).data with
    | nil =>
      rw [hdata] at hhash
      exact absurd hhash (by simp)
    | cons h digits =>
      rw [hdata] at hhash hlen hhex
      have hh : h = '#' := by simpa using hhash
      exact ⟨digits, by rw [hh], hlen, hhex⟩

theorem Colors_List_entries_witness :
    (∀ c ∈ [Gold, Black, Gold], c < 16) ∧
    ((Colors.List [Gold, Black, Gold]).length = [Gold, Black, Gold].length ∧
      ∀ (i : Nat) (hi : i < [Gold, Black, Gold].length),
        ∃ name label swatch : String,
          (Colors.List [Gold, Black, Gold])[i]?
            = some [("name", name), ("label", label), ("example", swatch)] ∧
          name = mapIndex "" Names ([Gold, Black, Gold].get ⟨i, hi⟩) ∧
          name ≠ "" ∧
          (∀ ch ∈ name.data, 'a' ≤ ch ∧ ch ≤ 'z') ∧
          (∃ first rest, name.data = first :: rest ∧ label.data = first.toUpper :: rest) ∧
          swatch = mapIndex "" ColorExamples ([Gold, Black, Gold].get ⟨i, hi⟩) ∧
          (∃ digits, swatch.data = '#' :: digits ∧ digits.length = 6 ∧
            ∀ ch ∈ digits, (hexVal ch).isSome = true)) :=
  ⟨by decide, Colors_List_entries [Gold, Black, Gold] (by decide)⟩

/-! ## Reference palette -/

/-- C14: no two reference points of `ColorMap` share the same RGB triple and every
reference point is fully opaque (alpha `0xff`); hence a reference colour is
assigned exactly one category. -/
theorem ColorMap_reference_points_distinct :
    (ColorMap.map (fun e => (e.1.r, e.1.g, e.1.b))).Nodup ∧
    (∀ e ∈ ColorMap, e.1.a = 0xff) ∧
    (∀ e ∈ ColorMap, ∀ e' ∈ ColorMap, e.1 = e'.1 → e.2 = e'.2) :=
  ⟨by decide!, by decide!, fun e he e' he' h => ColorMap_functional e e' he he' h⟩

/-- C15: `Colors.Hex` of the empty sequence and `LightMap.Hex` of the empty light
map are both the empty string. -/
theorem Hex_of_empty : Colors.Hex [] = "" ∧ LightMap.Hex [] = "" :=
  ⟨rfl, rfl⟩

/-! ## Ties, threshold and coverage of the classifier -/

/-- C16 (as stated, refuted): for an input far outside the gamut, here
`(10^30, 10^30, 10^30)` with the distance in which the reference colours are
absorbed, all reference points attain the same minimal distance. In source
order the gold `(0xf5, 0xea, 0xd4)` is met last, but the common distance exceeds
the threshold `1.0` and `Colorful` returns `Black`, not `Gold`. -/
theorem Colorful_tie_beyond_threshold :
    (∀ x ∈ ColorMap, ∀ y ∈ ColorMap,
      absorbedDistance (sampleMakeColor x.1) ⟨10 ^ 30, 10 ^ 30, 10 ^ 30⟩
        = absorbedDistance (sampleMakeColor y.1) ⟨10 ^ 30, 10 ^ 30, 10 ^ 30⟩) ∧
    (∀ x ∈ ColorMap,
      1 < absorbedDistance (sampleMakeColor x.1) ⟨10 ^ 30, 10 ^ 30, 10 ^ 30⟩) ∧
    ColorMap.getLast? = some (RGBA.mk 0xf5 0xea 0xd4 0xff, Gold) ∧
    Colorful sampleMakeColor absorbedDistance ColorMap ⟨10 ^ 30, 10 ^ 30, 10 ^ 30⟩ = Black ∧
    Black ≠ Gold := by
  decide!

/-- C16 (amended): tie-break. With the palette visited in the order
`pre ++ e :: post`, if `e` is at minimal distance from the input (no entry of
`pre` is nearer), every entry visited after `e` is strictly farther, and that
minimal distance is at most the threshold `1.0`, then `Colorful` returns the
category of `e`: among equally near reference points the one met last wins. -/
theorem Colorful_last_nearest_wins {C : Type} (MakeColor : RGBA → C)
    (DistanceLab : C → C → ℚ) (pre post : List (RGBA × Color)) (e : RGBA × Color)
    (actualColor : C)
    (hthr : DistanceLab (MakeColor e.1) actualColor ≤ 1)
    (hpre : ∀ x ∈ pre,
      DistanceLab (MakeColor e.1) actualColor ≤ DistanceLab (MakeColor x.1) actualColor)
    (hpost : ∀ x ∈ post,
      DistanceLab (MakeColor e.1) actualColor < DistanceLab (MakeColor x.1) actualColor) :
    Colorful MakeColor DistanceLab (pre ++ e :: post) actualColor = e.2 := by
  unfold Colorful
  rw [ColorfulLoop_last_minimum (fun rgba => DistanceLab (MakeColor rgba) actualColor)
    pre post e hthr hpre hpost]

theorem Colorful_last_nearest_wins_witness :
    sampleDistance (sampleMakeColor (RGBA.mk 0xb2 0xb4 0x9b 0xff)) ⟨0xb3, 0xb5, 0x9b⟩ ≤ 1 ∧
    (∀ x ∈ ColorMap.take 14,
      sampleDistance (sampleMakeColor (RGBA.mk 0xb2 0xb4 0x9b 0xff)) ⟨0xb3, 0xb5, 0x9b⟩
        ≤ sampleDistance (sampleMakeColor x.1) ⟨0xb3, 0xb5, 0x9b⟩) ∧
    (∀ x ∈ ColorMap.drop 15,
      sampleDistance (sampleMakeColor (RGBA.mk 0xb2 0xb4 0x9b 0xff)) ⟨0xb3, 0xb5, 0x9b⟩
        < sampleDistance (sampleMakeColor x.1) ⟨0xb3, 0xb5, 0x9b⟩) ∧
    ColorMap.take 14 ++ (RGBA.mk 0xb2 0xb4 0x9b 0xff, Green) :: ColorMap.drop 15 = ColorMap ∧
    (RGBA.mk 0xb4 0xb5 0x9c 0xff, Brown) ∈ ColorMap.take 14 ∧
    sampleDistance (sampleMakeColor (RGBA.mk 0xb4 0xb5 0x9c 0xff)) ⟨0xb3, 0xb5, 0x9b⟩
      = sampleDistance (sampleMakeColor (RGBA.mk 0xb2 0xb4 0x9b 0xff)) ⟨0xb3, 0xb5, 0x9b⟩ ∧
    Colorful sampleMakeColor sampleDistance
      (ColorMap.take 14 ++ (RGBA.mk 0xb2 0xb4 0x9b 0xff, Green) :: ColorMap.drop 15)
      ⟨0xb3, 0xb5, 0x9b⟩ = Green :=
  ⟨by decide!, by decide!, by decide!, by decide!, by decide!, by decide!,
    Colorful_last_nearest_wins sampleMakeColor sampleDistance (ColorMap.take 14)
      (ColorMap.drop 15) (RGBA.mk 0xb2 0xb4 0x9b 0xff, Green) ⟨0xb3, 0xb5, 0x9b⟩
      (by decide!) (by decide!) (by decide!)⟩

/-- C17: `Colorful` starts from the fixed threshold `1.0`. For every input whose
distance to every reference point is strictly greater than `1.0`, and for every
iteration order, no reference point is selected and `Colorful` returns the zero
value `Black`, whatever the category of the nearest reference point. -/
theorem Colorful_beyond_threshold_is_Black {C : Type} (MakeColor : RGBA → C)
    (DistanceLab : C → C → ℚ) (order : List (RGBA × Color)) (actualColor : C)
    (horder : order.Perm ColorMap)
    (hfar : ∀ e ∈ ColorMap, 1 < DistanceLab (MakeColor e.1) actualColor) :
    Colorful MakeColor DistanceLab order actualColor = Black ∧
    ColorfulLoop (fun rgba => DistanceLab (MakeColor rgba) actualColor) order (1, Black)
      = (1, Black) := by
  have hloop : ColorfulLoop (fun rgba => DistanceLab (MakeColor rgba) actualColor) order
      (1, Black) = (1, Black) :=
    ColorfulLoop_unchanged _ order (1, Black) (fun x hx => hfar x (horder.mem_iff.mp hx))
  refine ⟨?_, hloop⟩
  unfold Colorful
  rw [hloop]

theorem Colorful_beyond_threshold_is_Black_witness :
    ColorMap.reverse.Perm ColorMap ∧
    (∀ e ∈ ColorMap, 1 < sampleDistance (sampleMakeColor e.1) ⟨1000, 1000, 1000⟩) ∧
    (Colorful sampleMakeColor sampleDistance ColorMap.reverse ⟨1000, 1000, 1000⟩ = Black ∧
      ColorfulLoop (fun rgba => sampleDistance (sampleMakeColor rgba) ⟨1000, 1000, 1000⟩)
        ColorMap.reverse (1, Black) = (1, Black)) :=
  ⟨List.reverse_perm ColorMap, by decide!,
    Colorful_beyond_threshold_is_Black sampleMakeColor sampleDistance ColorMap.reverse
      ⟨1000, 1000, 1000⟩ (List.reverse_perm ColorMap) (by decide!)⟩

/-- C18 (as stated, refuted): the example swatch of Gold is `#FFD54F`; that
colour is a key of `ColorMap`, and `ColorMap` maps it to Yellow, not to Gold. -/
theorem Gold_swatch_is_Yellow_reference :
    Gold < 16 ∧
    mapIndex "" ColorExamples Gold = "#FFD54F" ∧
    swatchColor (mapIndex "" ColorExamples Gold) = some ⟨0xff, 0xd5, 0x4f, 0xff⟩ ∧
    (RGBA.mk 0xff 0xd5 0x4f 0xff, Yellow) ∈ ColorMap ∧
    Yellow ≠ Gold := by
  decide!

/-- C18 (amended): for every category `c` other than Gold, if the example colour
`ColorExamples[c]` is itself a key of `ColorMap`, then `ColorMap` maps it to
`c`. -/
theorem swatch_key_has_own_category (c : Color) (hc : c < 16) (hgold : c ≠ Gold)
    (e : RGBA × Color) (he : e ∈ ColorMap)
    (hkey : swatchColor (mapIndex "" ColorExamples c) = some e.1) : e.2 = c := by
  have hall : ∀ c < 16, c ≠ Gold → ∀ e ∈ ColorMap,
      swatchColor (mapIndex "" ColorExamples c) = some e.1 → e.2 = c := by
    decide!
  exact hall c hc hgold e he hkey

theorem swatch_key_has_own_category_witness :
    Yellow < 16 ∧ Yellow ≠ Gold ∧ (RGBA.mk 0xff 0xf1 0x76 0xff, Yellow) ∈ ColorMap ∧
    swatchColor (mapIndex "" ColorExamples Yellow)
      = some (RGBA.mk 0xff 0xf1 0x76 0xff, Yellow).1 ∧
    (RGBA.mk 0xff 0xf1 0x76 0xff, Yellow).2 = Yellow :=
  ⟨by decide, by decide, by decide!, by decide,
    swatch_key_has_own_category Yellow (by decide) (by decide)
      (RGBA.mk 0xff 0xf1 0x76 0xff, Yellow) (by decide!) (by decide)⟩

/-- C19: every one of the sixteen categories is the category of at least one
reference point of `ColorMap`; classifying the colour of that reference point
returns the category, for every iteration order and every non-negative distance
that vanishes exactly between identical reference colours. -/
theorem every_category_is_reachable {C : Type} (MakeColor : RGBA → C)
    (DistanceLab : C → C → ℚ) (order : List (RGBA × Color))
    (hzero : ∀ e ∈ ColorMap, ∀ e' ∈ ColorMap,
      (DistanceLab (MakeColor e.1) (MakeColor e'.1) = 0 ↔ e.1 = e'.1))
    (hnonneg : ∀ x y, 0 ≤ DistanceLab x y)
    (horder : order.Perm ColorMap) :
    ∀ c < 16, ∃ e ∈ ColorMap, e.2 = c ∧
      Colorful MakeColor DistanceLab order (MakeColor e.1) = c := by
  have hcover : ∀ c < 16, ∃ e ∈ ColorMap, e.2 = c := by decide!
  intro c hc
  obtain ⟨e, he, hcat⟩ := hcover c hc
  refine ⟨e, he, hcat, ?_⟩
  rw [Colorful_of_reference_point MakeColor DistanceLab order hzero hnonneg horder e he, hcat]

theorem every_category_is_reachable_witness :
    (∀ e ∈ ColorMap, ∀ e' ∈ ColorMap,
      (sampleDistance (sampleMakeColor e.1) (sampleMakeColor e'.1) = 0 ↔ e.1 = e'.1)) ∧
    (∀ x y, 0 ≤ sampleDistance x y) ∧
    ColorMap.reverse.Perm ColorMap ∧
    (∀ c < 16, ∃ e ∈ ColorMap, e.2 = c ∧
      Colorful sampleMakeColor sampleDistance ColorMap.reverse (sampleMakeColor e.1) = c) :=
  ⟨sample_zero_iff_same_key, sampleDistance_nonneg, List.reverse_perm ColorMap,
    every_category_is_reachable sampleMakeColor sampleDistance ColorMap.reverse
      sample_zero_iff_same_key sampleDistance_nonneg (List.reverse_perm ColorMap)⟩

/-- C20: the listing order `All` is a permutation of the sixteen categories: it
has exactly 16 entries, contains every ordinal `0..15` and none twice; hence
`Colors.Hex All` is a 16-character string in which each hexadecimal digit `0-F`
occurs exactly once. -/
theorem All_is_permutation :
    All.length = 16 ∧ All.Perm (List.range 16) ∧ (∀ c < 16, c ∈ All) ∧ All.Nodup ∧
    Colors.Hex All = "ECFD5BA987641320" ∧ (Colors.Hex All).length = 16 ∧
    (∀ ch ∈ "0123456789ABCDEF".data, (Colors.Hex All).data.count ch = 1) := by
  decide

end colors

namespace entity

/-! ## Default admin account -/

/-- C21: when `FindUser(Admin)` finds no existing admin, then for every value of
the package variables and every result of `FindLegacyUser` (none, or a legacy
user with any field values) `Create` is called, and the `Admin` record it is
called on has `SuperAdmin`, `CanLogin` and `WebDAV` all true and a non-empty
`UserName`: the legacy user name when that is non-empty, `"admin"` when it is
empty, and without a legacy user the current name of `Admin`, or `"admin"` when
that is empty. For `Admin` as declared, whose name is `"admin"`, the name is thus
the legacy user name when that is non-empty and `"admin"` otherwise. -/
theorem CreateDefaultUsers_admin_record (FindUser : User → Option User)
    (FindLegacyUser : User → Option LegacyUser) (Create : User → User × Bool)
    (FirstOrCreateUser : User → User × Option User) (g : Globals)
    (hnone : FindUser g.Admin = none) :
    ∃ handed : User,
      (CreateDefaultUsers FindUser FindLegacyUser Create FirstOrCreateUser g).created
        = some handed ∧
      handed.SuperAdmin = true ∧ handed.CanLogin = true ∧ handed.WebDAV = true ∧
      handed.UserName ≠ "" ∧
      handed.UserName =
        (match FindLegacyUser g.Admin with
          | some leg => if leg.UserName = "" then "admin" else leg.UserName
          | none => if g.Admin.UserName = "" then "admin" else g.Admin.UserName) ∧
      (g.Admin.UserName = "" ∨ g.Admin.UserName = AdminUserName →
        handed.UserName =
          (match FindLegacyUser g.Admin with
            | some leg => if leg.UserName = "" then "admin" else leg.UserName
            | none => "admin")) := by
  have hadmin : ("admin" : String) ≠ "" := by decide
  refine ⟨requireUserName (setDefaultValues (setLegacyValues g.Admin
    (FindLegacyUser g.Admin))), ?_, ?_⟩
  · simp only [CreateDefaultUsers, hnone]
  · cases hleg : FindLegacyUser g.Admin with
    | none =>
      by_cases hname : g.Admin.UserName = ""
      · simp [setLegacyValues, setDefaultValues, requireUserName, hname, hadmin]
      · have hsplit : requireUserName (setDefaultValues (setLegacyValues g.Admin none))
            = setDefaultValues g.Admin := by
          simp [setLegacyValues, setDefaultValues, requireUserName, hname]
        rw [hsplit]
        refine ⟨rfl, rfl, rfl, hname, ?_, ?_⟩
        · simp [setDefaultValues, hname]
        · intro h
          rcases h with h | h
          · exact absurd h hname
          · simpa [setDefaultValues, AdminUserName] using h
    | some leg =>
      by_cases hname : leg.UserName = ""
      · simp [setLegacyValues, setDefaultValues, requireUserName, hname, hadmin]
      · simp [setLegacyValues, setDefaultValues, requireUserName, hname]

theorem CreateDefaultUsers_admin_record_witness :
    (fun _ => none : User → Option User)
      (Globals.mk (UnknownUser "") (UnknownUser "") (Visitor "visitor")).Admin = none ∧
    ∃ handed : User,
      (CreateDefaultUsers (fun _ => none) (fun _ => none)
        (fun u => (u, false)) (fun u => (u, some u))
        (Globals.mk (UnknownUser "") (UnknownUser "") (Visitor "visitor"))).created
        = some handed ∧
      handed.SuperAdmin = true ∧ handed.CanLogin = true ∧ handed.WebDAV = true ∧
      handed.UserName ≠ "" ∧
      handed.UserName =
        (match (fun _ => none : User → Option LegacyUser)
            (Globals.mk (UnknownUser "") (UnknownUser "") (Visitor "visitor")).Admin with
          | some leg => if leg.UserName = "" then "admin" else leg.UserName
          | none =>
            if (Globals.mk (UnknownUser "") (UnknownUser "") (Visitor "visitor")).Admin.UserName
                = "" then "admin"
            else (Globals.mk (UnknownUser "") (UnknownUser "")
              (Visitor "visitor")).Admin.UserName) ∧
      ((Globals.mk (UnknownUser "") (UnknownUser "") (Visitor "visitor")).Admin.UserName = "" ∨
          (Globals.mk (UnknownUser "") (UnknownUser "") (Visitor "visitor")).Admin.UserName
            = AdminUserName →
        handed.UserName =
          (match (fun _ => none : User → Option LegacyUser)
              (Globals.mk (UnknownUser "") (UnknownUser "") (Visitor "visitor")).Admin with
            | some leg => if leg.UserName = "" then "admin" else leg.UserName
            | none => "admin")) :=
  ⟨rfl, CreateDefaultUsers_admin_record (fun _ => none) (fun _ => none)
    (fun u => (u, false)) (fun u => (u, some u))
    (Globals.mk (UnknownUser "") (UnknownUser "") (Visitor "visitor")) rfl⟩

end entity
